import Mathlib

/-!
Verification of the BarterNow matching engine (`app/matching.py` together
with the pure logic of `app/database.py`: `check_geographic_match` and the
row shapes its queries return).

Modelling conventions:
* Python floats and SQL decimals are modelled as exact rationals (`ℚ`).
* A nullable column or an optional dict value is an `Option`.
* Python dicts fetched from the store become structures whose fields are the
  keys the matching code reads.
* The persistence collaborator (connection pool, SQL) is abstracted as a
  `Database` record of pure lookup functions, one per query helper of
  `app/database.py`; `ORDER BY org_id` and row/key consistency enter the
  theorems as explicit hypotheses on that record.
* Python set operations on id sets are rendered over lists: membership via
  `List.contains`, intersection for counting via `dedup.filter`.
* `round(x, 2)` is round-half-to-even at two decimals (`round2`).
-/

namespace BarterNow

/-- Python's `pat in s` substring test, on explicit character lists:
true when `pat` occurs inside `s`. -/
def listContains (pat : List Char) : List Char → Bool
  | [] => pat.isEmpty
  | c :: t => pat.isPrefixOf (c :: t) || listContains pat t

/-- Python's `pat in s` on strings (`'avoided' in explanation`). -/
def strContains (s pat : String) : Bool :=
  listContains pat.data s.data

/-- Python truthiness of an optional integer: `None` and `0` are falsy. -/
def pyTruthyNat : Option Nat → Bool
  | none => false
  | some n => n != 0

/-- Python's `x or 0` on an optional number (also sends a stored `0` to `0`,
so the value is `getD 0`). -/
def pyOrZero : Option ℚ → ℚ
  | none => 0
  | some q => q

/-- How an optional string renders inside a Python f-string: `None` shows as
the text "None". -/
def pyStr : Option String → String
  | none => "None"
  | some s => s

/-- Round-half-to-even on a rational, the tie rule of Python's `round`. -/
def roundHalfEven (q : ℚ) : ℤ :=
  let f := ⌊q⌋
  let r := q - (f : ℚ)
  if r < 1 / 2 then f
  else if 1 / 2 < r then f + 1
  else if f % 2 = 0 then f else f + 1

/-- Python's `round(x, 2)` on the exact-rational model of a float. -/
def round2 (q : ℚ) : ℚ :=
  (roundHalfEven (q * 100) : ℚ) / 100

/-- A row of `brand_target_cities` as the matching code reads it (only
`city_id` is consumed; display columns are ignored by the engine). -/
structure CityRef where
  city_id : Nat
deriving DecidableEq

/-- A row of `brand_target_states` (only `state_id` is consumed). -/
structure StateRef where
  state_id : Nat
deriving DecidableEq

/-- A row of `brand_target_countries` (only `country_id` is consumed). -/
structure CountryRef where
  country_id : Nat
deriving DecidableEq

/-- A category row: `{category_id, category_name}`. -/
structure CatRef where
  category_id : Nat
  category_name : String
deriving DecidableEq

/-- A deliverable row: `{deliverable_type_id, deliverable_name}`. -/
structure DelivRef where
  deliverable_type_id : Nat
  deliverable_name : String
deriving DecidableEq

/-- An age-bucket row (only `age_bucket_id` is consumed by scoring). -/
structure AgeRef where
  age_bucket_id : Nat
deriving DecidableEq

/-- An audience-type row (only `audience_type_id` is consumed by scoring). -/
structure AudTypeRef where
  audience_type_id : Nat
deriving DecidableEq

/-- An interest-tag row: `{interest_tag_id, tag_name}`. -/
structure TagRef where
  interest_tag_id : Nat
  tag_name : String
deriving DecidableEq

/-- The dict `get_brand_profile` returns, restricted to the keys the matching
engine reads. Nullable columns are `Option`. -/
structure BrandProfile where
  brand_org_id : Nat
  brand_name : String
  spend_per_event_min : Option ℚ
  spend_per_event_max : Option ℚ
  geographic_focus_type : Option String
  default_match_weight_set_id : Option Nat
  default_match_rule_set_id : Option Nat
  target_cities : List CityRef
  target_states : List StateRef
  target_countries : List CountryRef
  preferred_categories : List CatRef
  avoided_categories : List CatRef
  wanted_deliverables : List DelivRef
  must_have_deliverables : List DelivRef
  target_age_buckets : List AgeRef
  target_audience_types : List AudTypeRef
  target_interest_tags : List TagRef

/-- The dict `get_event_profile` returns, restricted to the keys the matching
engine reads. -/
structure EventProfile where
  event_org_id : Nat
  event_name : String
  city_id : Option Nat
  package_min : Option ℚ
  package_max : Option ℚ
  categories : List CatRef
  deliverables_offered : List DelivRef
  age_distribution : List AgeRef
  audience_types : List AudTypeRef
  interest_tags : List TagRef

/-- The row `resolve_city_geography` returns: a LEFT JOIN, so the state and
country columns may be null. -/
structure CityGeo where
  city_id : Nat
  city_name : String
  state_id : Option Nat
  state_name : Option String
  country_id : Option Nat
  country_name : Option String
  city_tier : Option Nat

/-- A weight set as `get_match_weight_set` returns it. -/
structure Weights where
  category : ℚ
  geo : ℚ
  budget : ℚ
  audience : ℚ
  deliverables : ℚ

/-- A rule set as `get_match_rule_set` returns it. -/
structure Rules where
  enforce_must_have_deliverables : Bool
  enforce_city_filter : Bool
  enforce_date_window : Bool
  enforce_budget_overlap : Bool
  min_budget_overlap_ratio : ℚ
  allowed_date_slack_days : ℚ
  min_audience_overlap_score : ℚ
  budget_near_boundary_ratio : ℚ
  footfall_partial_match_ratio : ℚ

/-- The persistence collaborator: one pure lookup per query helper of
`app/database.py`. `eventOrgs`/`brandOrgs` are the id listings of
`get_all_event_orgs`/`get_all_brand_orgs` (`ORDER BY org_id` becomes a
sortedness hypothesis where a theorem needs it). -/
structure Database where
  brandProfile : Nat → Option BrandProfile
  eventProfile : Nat → Option EventProfile
  cityGeo : Nat → Option CityGeo
  weightSet : Nat → Option Weights
  ruleSet : Nat → Option Rules
  eventOrgs : List Nat
  brandOrgs : List Nat

/-- The dict `check_geographic_match` returns. -/
structure GeoMatch where
  «matches» : Bool
  match_level : Option String
  explanation : String

/-- One criterion's score dict. `passed_hard_filter` and `match_level` are
only present in some branches (`none` models an absent key). -/
structure Score where
  weight : ℚ
  match_factor : ℚ
  contribution : ℚ
  explanation : String
  passed_hard_filter : Option Bool := none
  match_level : Option String := none

/-- `check_geographic_match(event_city_id, brand_profile)` of
`app/database.py`: hierarchical, deterministic, id-based matching. -/
def check_geographic_match (db : Database) (event_city_id : Nat)
    (brand_profile : BrandProfile) : GeoMatch :=
  let focus_type := brand_profile.geographic_focus_type
  match db.cityGeo event_city_id with
  | none =>
      { «matches» := false, match_level := none,
        explanation := "Event city not found in geography database" }
  | some event_geo =>
      if focus_type = some "local" then
        let target_city_ids := brand_profile.target_cities.map (fun c => c.city_id)
        if event_city_id ∈ target_city_ids then
          { «matches» := true, match_level := some "city",
            explanation := "City match: " ++ event_geo.city_name ++
              " is in brand's target cities" }
        else
          { «matches» := false, match_level := none,
            explanation := "City " ++ event_geo.city_name ++
              " not in brand's target cities" }
      else if focus_type = some "state" then
        let target_state_ids := brand_profile.target_states.map (fun s => s.state_id)
        if pyTruthyNat event_geo.state_id ∧ event_geo.state_id.getD 0 ∈ target_state_ids then
          { «matches» := true, match_level := some "state",
            explanation := "State match: " ++ pyStr event_geo.state_name ++
              " is in brand's target states" }
        else
          { «matches» := false, match_level := none,
            explanation := "State " ++ pyStr event_geo.state_name ++
              " not in brand's target states" }
      else if focus_type = some "national" then
        let target_country_ids := brand_profile.target_countries.map (fun c => c.country_id)
        if pyTruthyNat event_geo.country_id ∧ event_geo.country_id.getD 0 ∈ target_country_ids then
          { «matches» := true, match_level := some "country",
            explanation := "Country match: " ++ pyStr event_geo.country_name ++
              " is in brand's target countries" }
        else
          { «matches» := false, match_level := none,
            explanation := "Country " ++ pyStr event_geo.country_name ++
              " not in brand's target countries" }
      else
        { «matches» := false, match_level := none,
          explanation := "Unknown geographic focus type: " ++ pyStr focus_type }

/-- `score_geography`: binary geography score with a hard-filter flag.
Python's `if not event_city_id` is falsy on `None` and `0`. -/
def score_geography (db : Database) (event_city_id : Option Nat)
    (brand_profile : BrandProfile) (weight : ℚ) : Score :=
  if pyTruthyNat event_city_id = false then
    { weight := weight, match_factor := 0, contribution := 0,
      explanation := "Event city not specified", passed_hard_filter := some false }
  else
    let geo_match := check_geographic_match db (event_city_id.getD 0) brand_profile
    if geo_match.«matches» then
      { weight := weight, match_factor := 1, contribution := weight * 1,
        explanation := geo_match.explanation, passed_hard_filter := some true,
        match_level := geo_match.match_level }
    else
      { weight := weight, match_factor := 0, contribution := 0,
        explanation := geo_match.explanation, passed_hard_filter := some false }

/-- `score_budget`: range-overlap scoring. The event bounds are checked for
absence first; the sponsor bounds then go through `float(...)`, which in the
source would raise on `None` — the evaluators always pass concrete values
there (see the C10 theorem), so the `getD 0` completion is never consulted on
the evaluation path. The source's `$…:,.0f` display formatting of the
embedded numbers is rendered as plain `toString`. -/
def score_budget (event_funding_min event_funding_max : Option ℚ)
    (sponsor_budget_min sponsor_budget_max : Option ℚ)
    (weight budget_near_boundary_ratio : ℚ) : Score :=
  match event_funding_min, event_funding_max with
  | some emin, some emax =>
      let smin := sponsor_budget_min.getD 0
      let smax := sponsor_budget_max.getD 0
      let overlap_min := max smin emin
      let overlap_max := min smax emax
      if overlap_min ≤ overlap_max then
        { weight := weight, match_factor := 1, contribution := weight * 1,
          explanation := "Budget ranges overlap: event needs " ++ toString emin ++
            "-" ++ toString emax ++ ", brand offer " ++ toString smin ++ "-" ++
            toString smax ++ "." }
      else
        let sponsor_range := smax - smin
        let event_range := emax - emin
        let threshold := (max sponsor_range event_range) * budget_near_boundary_ratio
        let gap := min |emax - smin| |smax - emin|
        if gap ≤ threshold then
          { weight := weight, match_factor := 0.5, contribution := weight * 0.5,
            explanation := "Budget ranges are close but don't overlap: event needs " ++
              toString emin ++ "-" ++ toString emax ++ ", bramd offer " ++
              toString smin ++ "-" ++ toString smax ++ "." }
        else
          { weight := weight, match_factor := 0, contribution := weight * 0,
            explanation := "Budget ranges don't match: event needs " ++
              toString emin ++ "-" ++ toString emax ++ ", brand offer " ++
              toString smin ++ "-" ++ toString smax ++ "." }
  | _, _ =>
      { weight := weight, match_factor := 0.5, contribution := weight * 0.5,
        explanation := "Event budget not specified" }

/-- `score_categories`: avoided beats preferred beats neutral; a category-less
event is neutral 0.5. -/
def score_categories (event_categories preferred_categories avoided_categories : List CatRef)
    (weight : ℚ) : Score :=
  if event_categories.isEmpty then
    { weight := weight, match_factor := 0.5, contribution := weight * 0.5,
      explanation := "Event categories not specified" }
  else
    let event_cat_ids := event_categories.map (fun c => c.category_id)
    let preferred_ids := preferred_categories.map (fun c => c.category_id)
    let avoided_ids := avoided_categories.map (fun c => c.category_id)
    if event_cat_ids.any (fun i => avoided_ids.contains i) then
      let avoided_names :=
        (event_categories.filter (fun c => avoided_ids.contains c.category_id)).map
          (fun c => c.category_name)
      { weight := weight, match_factor := 0, contribution := 0,
        explanation := "Event has avoided categories: " ++
          String.intercalate ", " avoided_names }
    else if event_cat_ids.any (fun i => preferred_ids.contains i) then
      let preferred_names :=
        (event_categories.filter (fun c => preferred_ids.contains c.category_id)).map
          (fun c => c.category_name)
      { weight := weight, match_factor := 1, contribution := weight * 1,
        explanation := "Event has preferred categories: " ++
          String.intercalate ", " preferred_names }
    else
      { weight := weight, match_factor := 0.5, contribution := weight * 0.5,
        explanation := "Event categories (" ++
          String.intercalate ", " (event_categories.map (fun c => c.category_name)) ++
          ") are neutral (not preferred, not avoided)" }

/-- Distinct shared ids of two id lists: the Python set intersection
`brand_ids & event_ids`, enumerated in event order. -/
def overlapIds (brand_ids event_ids : List Nat) : List Nat :=
  event_ids.dedup.filter (fun i => brand_ids.contains i)

/-- The average-or-half rule of `score_audience_overlap`: the unweighted mean
of the computed sub-scores, or 0.5 when none was computable. -/
def meanOrHalf (scores : List ℚ) : ℚ :=
  if scores.isEmpty then 0.5 else scores.sum / (scores.length : ℚ)

/-- `score_audience_overlap`: up to three binary sub-scores (age buckets,
audience types, interest tags), each computed only when both sides have data,
averaged; 0.5 with an "insufficient data" note when none is computable. Each
dimension yields its `(score, explanation)` pair in lockstep, as the source's
parallel `scores`/`explanations` appends do. -/
def score_audience_overlap (event_age_distribution : List AgeRef)
    (event_audience_types : List AudTypeRef) (event_interest_tags : List TagRef)
    (brand_age_buckets : List AgeRef) (brand_audience_types : List AudTypeRef)
    (brand_interest_tags : List TagRef) (weight : ℚ) : Score :=
  let age_pair : Option (ℚ × String) :=
    if brand_age_buckets.isEmpty = false ∧ event_age_distribution.isEmpty = false then
      let overlap := overlapIds (brand_age_buckets.map (fun a => a.age_bucket_id))
        (event_age_distribution.map (fun a => a.age_bucket_id))
      if overlap.isEmpty = false then
        some (1, "Age buckets overlap (" ++ toString overlap.length ++ " buckets)")
      else
        some (0, "No age bucket overlap")
    else none
  let type_pair : Option (ℚ × String) :=
    if brand_audience_types.isEmpty = false ∧ event_audience_types.isEmpty = false then
      let overlap := overlapIds (brand_audience_types.map (fun a => a.audience_type_id))
        (event_audience_types.map (fun a => a.audience_type_id))
      if overlap.isEmpty = false then
        some (1, "Audience types match (" ++ toString overlap.length ++ " types)")
      else
        some (0, "No audience type overlap")
    else none
  let tag_pair : Option (ℚ × String) :=
    if brand_interest_tags.isEmpty = false ∧ event_interest_tags.isEmpty = false then
      let overlap := overlapIds (brand_interest_tags.map (fun t => t.interest_tag_id))
        (event_interest_tags.map (fun t => t.interest_tag_id))
      if overlap.isEmpty = false then
        let overlap_names :=
          (event_interest_tags.filter (fun t => overlap.contains t.interest_tag_id)).map
            (fun t => t.tag_name)
        some (1, "Interest tags match: " ++ String.intercalate ", " (overlap_names.take 3))
      else
        some (0, "No interest tag overlap")
    else none
  let included := age_pair.toList ++ type_pair.toList ++ tag_pair.toList
  let scores := included.map Prod.fst
  let match_factor := meanOrHalf scores
  let explanation :=
    if scores.isEmpty then "Insufficient audience data to score"
    else String.intercalate "\n" (included.map Prod.snd)
  { weight := weight, match_factor := match_factor,
    contribution := weight * match_factor, explanation := explanation }

/-- `score_deliverables`: missing must-haves (or an empty offer) fail the hard
filter; otherwise the score is the offered fraction of the wanted set (0.5
when none offered, 1.0 when the brand wants nothing in particular). -/
def score_deliverables (event_deliverables wanted_deliverables must_have_deliverables : List DelivRef)
    (weight : ℚ) : Score :=
  if event_deliverables.isEmpty then
    { weight := weight, match_factor := 0, contribution := 0,
      explanation := "Event offers no deliverables", passed_hard_filter := some false }
  else
    let event_deliv_ids := event_deliverables.map (fun d => d.deliverable_type_id)
    let must_have_ids := (must_have_deliverables.map (fun d => d.deliverable_type_id)).dedup
    let missing := must_have_ids.filter (fun i => ¬ event_deliv_ids.contains i)
    if missing.isEmpty = false then
      let missing_names :=
        (must_have_deliverables.filter (fun d => missing.contains d.deliverable_type_id)).map
          (fun d => d.deliverable_name)
      { weight := weight, match_factor := 0, contribution := 0,
        explanation := "Event missing must-have deliverables: " ++
          String.intercalate ", " missing_names,
        passed_hard_filter := some false }
    else
      if wanted_deliverables.isEmpty = false then
        let wanted_ids := (wanted_deliverables.map (fun d => d.deliverable_type_id)).dedup
        let offered := wanted_ids.filter (fun i => event_deliv_ids.contains i)
        if offered.isEmpty = false then
          let match_factor := (offered.length : ℚ) / (wanted_ids.length : ℚ)
          let offered_names :=
            (event_deliverables.filter (fun d => offered.contains d.deliverable_type_id)).map
              (fun d => d.deliverable_name)
          { weight := weight, match_factor := match_factor,
            contribution := weight * match_factor,
            explanation := "Event offers " ++ toString offered.length ++ "/" ++
              toString wanted_ids.length ++ " wanted deliverables: " ++
              String.intercalate ", " offered_names,
            passed_hard_filter := some true }
        else
          { weight := weight, match_factor := 0.5, contribution := weight * 0.5,
            explanation := "Event offers deliverables, but none are in wanted list",
            passed_hard_filter := some true }
      else
        { weight := weight, match_factor := 1, contribution := weight * 1,
          explanation := "No specific deliverable preferences",
          passed_hard_filter := some true }

/-- The hard-coded default weights, duplicated verbatim in both evaluators of
the source. -/
def DEFAULT_WEIGHTS : Weights :=
  { category := 0.25, geo := 0.20, budget := 0.20, audience := 0.20,
    deliverables := 0.15 }

/-- The hard-coded default rules, duplicated verbatim in both evaluators. -/
def DEFAULT_RULES : Rules :=
  { enforce_must_have_deliverables := false, enforce_city_filter := false,
    enforce_date_window := false, enforce_budget_overlap := false,
    min_budget_overlap_ratio := 1, allowed_date_slack_days := 0,
    min_audience_overlap_score := 1, budget_near_boundary_ratio := 0.1,
    footfall_partial_match_ratio := 0.8 }

/-- The weight-loading step of both evaluators:
`weights = get_match_weight_set(id) if id else None; if not weights: defaults`.
Python's `if weight_set_id` is falsy on `None` and `0`; `if not weights` is
truthy exactly when the lookup returned `None`. -/
def loadWeights (db : Database) (weight_set_id : Option Nat) : Weights :=
  match weight_set_id with
  | none => DEFAULT_WEIGHTS
  | some i => if i = 0 then DEFAULT_WEIGHTS else (db.weightSet i).getD DEFAULT_WEIGHTS

/-- The rule-loading step of both evaluators, with the same falsy-id and
missing-row fallbacks as `loadWeights`. -/
def loadRules (db : Database) (rule_set_id : Option Nat) : Rules :=
  match rule_set_id with
  | none => DEFAULT_RULES
  | some i => if i = 0 then DEFAULT_RULES else (db.ruleSet i).getD DEFAULT_RULES

/-- The result dict both evaluators return on success. -/
structure MatchResult where
  event_org_id : Nat
  event_name : String
  total_score : ℚ
  max_score : ℚ
  match_percentage : ℚ
  breakdown : List (String × Score)
  explanation : String

/-- The final-score aggregation both evaluators share verbatim: totals summed
dynamically over the breakdown, percentage guarded by `max_score > 0`, all
three rounded to two decimals, and an explanation line per criterion whose
`match_factor` is positive ("Minimal match" when none is). -/
def buildMatchResult (event : EventProfile) (breakdown : List (String × Score)) :
    MatchResult :=
  let total_score := (breakdown.map (fun p => p.2.contribution)).sum
  let max_score := (breakdown.map (fun p => p.2.weight)).sum
  let match_percentage := if 0 < max_score then total_score / max_score * 100 else 0
  let explanation_parts :=
    (breakdown.filter (fun p => 0 < p.2.match_factor)).map
      (fun p => p.1.capitalize ++ ": " ++ p.2.explanation)
  { event_org_id := event.event_org_id, event_name := event.event_name,
    total_score := round2 total_score, max_score := round2 max_score,
    match_percentage := round2 match_percentage, breakdown := breakdown,
    explanation :=
      if explanation_parts.isEmpty then "Minimal match"
      else String.intercalate "\n" explanation_parts }

/-- `evaluate_event_for_brands(brand_org_id, event_org_id)`: the
three-criterion direction (geography, budget, categories). `None` models both
a missing profile and a hard-filter rejection, as in the source. -/
def evaluate_event_for_brands (db : Database) (brand_org_id event_org_id : Nat) :
    Option MatchResult :=
  (db.brandProfile brand_org_id).bind fun brand =>
  (db.eventProfile event_org_id).bind fun event =>
    let weights := loadWeights db brand.default_match_weight_set_id
    let rules := loadRules db brand.default_match_rule_set_id
    let geo_score := score_geography db event.city_id brand weights.geo
    if rules.enforce_city_filter ∧ geo_score.passed_hard_filter.getD false = false then
      none
    else
      let budget_score := score_budget
        (some (pyOrZero event.package_min)) (some (pyOrZero event.package_max))
        (some (pyOrZero brand.spend_per_event_min)) (some (pyOrZero brand.spend_per_event_max))
        weights.budget rules.budget_near_boundary_ratio
      let category_score := score_categories event.categories
        brand.preferred_categories brand.avoided_categories weights.category
      if category_score.match_factor = 0 ∧ strContains category_score.explanation "avoided" then
        none
      else
        some (buildMatchResult event
          [("geography", geo_score), ("budget", budget_score),
           ("categories", category_score)])

/-- `evaluate_brand_for_events(brand_org_id, event_org_id)`: the
five-criterion direction (geography, budget, categories, audience,
deliverables), with the must-have-deliverables hard filter. -/
def evaluate_brand_for_events (db : Database) (brand_org_id event_org_id : Nat) :
    Option MatchResult :=
  (db.brandProfile brand_org_id).bind fun brand =>
  (db.eventProfile event_org_id).bind fun event =>
    let weights := loadWeights db brand.default_match_weight_set_id
    let rules := loadRules db brand.default_match_rule_set_id
    let geo_score := score_geography db event.city_id brand weights.geo
    if rules.enforce_city_filter ∧ geo_score.passed_hard_filter.getD false = false then
      none
    else
      let budget_score := score_budget
        (some (pyOrZero event.package_min)) (some (pyOrZero event.package_max))
        (some (pyOrZero brand.spend_per_event_min)) (some (pyOrZero brand.spend_per_event_max))
        weights.budget rules.budget_near_boundary_ratio
      let category_score := score_categories event.categories
        brand.preferred_categories brand.avoided_categories weights.category
      if category_score.match_factor = 0 ∧ strContains category_score.explanation "avoided" then
        none
      else
        let audience_score := score_audience_overlap event.age_distribution
          event.audience_types event.interest_tags brand.target_age_buckets
          brand.target_audience_types brand.target_interest_tags weights.audience
        let deliverables_score := score_deliverables event.deliverables_offered
          brand.wanted_deliverables brand.must_have_deliverables weights.deliverables
        if rules.enforce_must_have_deliverables ∧
            deliverables_score.passed_hard_filter.getD true = false then
          none
        else
          some (buildMatchResult event
            [("geography", geo_score), ("budget", budget_score),
             ("categories", category_score), ("audience", audience_score),
             ("deliverables", deliverables_score)])

/-- One insertion step of Python's stable descending sort: `x` passes every
element with a strictly larger key and lands before the first whose key is
less than or equal to its own, so original order is kept among equal keys. -/
def insertByDesc {α : Type} (key : α → ℚ) (x : α) : List α → List α
  | [] => [x]
  | y :: t => if key x < key y then y :: insertByDesc key x t else x :: y :: t

/-- Python's `list.sort(key=..., reverse=True)`: the unique stable descending
reordering, realised as insertion sort. -/
def sortByDesc {α : Type} (key : α → ℚ) : List α → List α
  | [] => []
  | x :: t => insertByDesc key x (sortByDesc key t)

/-- The shape `get_matches_for_brand` returns. -/
structure BrandMatches where
  brand_org_id : Nat
  brand_name : String
  «matches» : List MatchResult

/-- `get_matches_for_brand(brand_org_id)`: empty placeholder shape for an
unknown brand, else every event evaluated, rejections dropped, and the rest
sorted by `match_percentage` descending (stable). -/
def get_matches_for_brand (db : Database) (brand_org_id : Nat) : BrandMatches :=
  match db.brandProfile brand_org_id with
  | none =>
      { brand_org_id := brand_org_id, brand_name := "Unknown", «matches» := [] }
  | some brand =>
      let ms := db.eventOrgs.filterMap (fun event_org_id =>
        evaluate_brand_for_events db brand_org_id event_org_id)
      { brand_org_id := brand.brand_org_id, brand_name := brand.brand_name,
        «matches» := sortByDesc (fun m => m.match_percentage) ms }

/-- One line item of `get_matches_for_event`: brand display fields plus the
scores (no repeated event fields). -/
structure EventMatchItem where
  brand_org_id : Nat
  brand_name : String
  total_score : ℚ
  max_score : ℚ
  match_percentage : ℚ
  breakdown : List (String × Score)
  explanation : String

/-- The shape `get_matches_for_event` returns. -/
structure EventMatches where
  event_org_id : Nat
  event_name : String
  «matches» : List EventMatchItem

/-- `get_matches_for_event(event_org_id)`: empty placeholder shape for an
unknown event, else every brand evaluated (re-fetching the brand for its
display fields and skipping it when that fetch returns nothing), rejections
dropped, and the rest sorted by `match_percentage` descending (stable). -/
def get_matches_for_event (db : Database) (event_org_id : Nat) : EventMatches :=
  match db.eventProfile event_org_id with
  | none =>
      { event_org_id := event_org_id, event_name := "Unknown", «matches» := [] }
  | some event =>
      let ms := db.brandOrgs.filterMap (fun brand_org_id =>
        (evaluate_event_for_brands db brand_org_id event_org_id).bind fun mr =>
          (db.brandProfile brand_org_id).map fun brand =>
            ({ brand_org_id := brand_org_id, brand_name := brand.brand_name,
               total_score := mr.total_score, max_score := mr.max_score,
               match_percentage := mr.match_percentage, breakdown := mr.breakdown,
               explanation := mr.explanation } : EventMatchItem))
      { event_org_id := event.event_org_id, event_name := event.event_name,
        «matches» := sortByDesc (fun m => m.match_percentage) ms }

/-- The breakdown the five-criterion path (`evaluate_brand_for_events`)
assembles on success, named for the theorems below. -/
def brandPathBreakdown (db : Database) (brand : BrandProfile) (event : EventProfile) :
    List (String × Score) :=
  [("geography", score_geography db event.city_id brand
      (loadWeights db brand.default_match_weight_set_id).geo),
   ("budget", score_budget
      (some (pyOrZero event.package_min)) (some (pyOrZero event.package_max))
      (some (pyOrZero brand.spend_per_event_min)) (some (pyOrZero brand.spend_per_event_max))
      (loadWeights db brand.default_match_weight_set_id).budget
      (loadRules db brand.default_match_rule_set_id).budget_near_boundary_ratio),
   ("categories", score_categories event.categories brand.preferred_categories
      brand.avoided_categories (loadWeights db brand.default_match_weight_set_id).category),
   ("audience", score_audience_overlap event.age_distribution event.audience_types
      event.interest_tags brand.target_age_buckets brand.target_audience_types
      brand.target_interest_tags (loadWeights db brand.default_match_weight_set_id).audience),
   ("deliverables", score_deliverables event.deliverables_offered brand.wanted_deliverables
      brand.must_have_deliverables (loadWeights db brand.default_match_weight_set_id).deliverables)]

/-- The breakdown the three-criterion path (`evaluate_event_for_brands`)
assembles on success. -/
def eventPathBreakdown (db : Database) (brand : BrandProfile) (event : EventProfile) :
    List (String × Score) :=
  [("geography", score_geography db event.city_id brand
      (loadWeights db brand.default_match_weight_set_id).geo),
   ("budget", score_budget
      (some (pyOrZero event.package_min)) (some (pyOrZero event.package_max))
      (some (pyOrZero brand.spend_per_event_min)) (some (pyOrZero brand.spend_per_event_max))
      (loadWeights db brand.default_match_weight_set_id).budget
      (loadRules db brand.default_match_rule_set_id).budget_near_boundary_ratio),
   ("categories", score_categories event.categories brand.preferred_categories
      brand.avoided_categories (loadWeights db brand.default_match_weight_set_id).category)]

/-! ### Concrete fixtures for witnesses and counterexamples -/

/-- A brand profile with every optional column null and every list empty. -/
def baseBrand : BrandProfile :=
  { brand_org_id := 1, brand_name := "Acme", spend_per_event_min := none,
    spend_per_event_max := none, geographic_focus_type := none,
    default_match_weight_set_id := none, default_match_rule_set_id := none,
    target_cities := [], target_states := [], target_countries := [],
    preferred_categories := [], avoided_categories := [],
    wanted_deliverables := [], must_have_deliverables := [],
    target_age_buckets := [], target_audience_types := [], target_interest_tags := [] }

/-- An event profile with every optional column null and every list empty. -/
def baseEvent : EventProfile :=
  { event_org_id := 2, event_name := "Expo", city_id := none, package_min := none,
    package_max := none, categories := [], deliverables_offered := [],
    age_distribution := [], audience_types := [], interest_tags := [] }

/-- A store in which every lookup misses and both id listings are empty. -/
def noDb : Database :=
  { brandProfile := fun _ => none, eventProfile := fun _ => none,
    cityGeo := fun _ => none, weightSet := fun _ => none, ruleSet := fun _ => none,
    eventOrgs := [], brandOrgs := [] }

/-- A brand that both prefers and avoids category 1 (ids overlap on purpose). -/
def c2brand : BrandProfile :=
  { baseBrand with preferred_categories := [⟨1, "Music"⟩],
                   avoided_categories := [⟨1, "Music"⟩] }

/-- An event carrying category 1. -/
def c2event : EventProfile :=
  { baseEvent with categories := [⟨1, "Music"⟩] }

/-- A store holding `c2brand` under id 1 and `c2event` under id 2. -/
def c2db : Database :=
  { noDb with brandProfile := fun i => if i = 1 then some c2brand else none,
              eventProfile := fun i => if i = 2 then some c2event else none,
              eventOrgs := [2], brandOrgs := [1] }

/-- A local-focus brand targeting cities 5 and 9 (both target rows active,
which is what the profile query keeps). -/
def c7brand : BrandProfile :=
  { baseBrand with geographic_focus_type := some "local",
                   target_cities := [⟨5⟩, ⟨9⟩] }

/-- A resolved geography row for city `i`. -/
def c7geo (i : Nat) : CityGeo :=
  { city_id := i, city_name := "City", state_id := some 1,
    state_name := some "State", country_id := some 1,
    country_name := some "Country", city_tier := some 1 }

/-- A store whose geography lookup resolves cities 7 and 9. -/
def c7db : Database :=
  { noDb with cityGeo := fun i => if i = 7 ∨ i = 9 then some (c7geo i) else none }

/-- A store holding the all-default brand under id 1 and the all-default
event under id 2. -/
def c1db : Database :=
  { noDb with brandProfile := fun i => if i = 1 then some baseBrand else none,
              eventProfile := fun i => if i = 2 then some baseEvent else none,
              eventOrgs := [2], brandOrgs := [1] }

/-- A brand whose single must-have deliverable (id 1) is not offered below,
while its wanted deliverable (id 2) is. -/
def c3brand : BrandProfile :=
  { baseBrand with must_have_deliverables := [⟨1, "Stage banner"⟩],
                   wanted_deliverables := [⟨2, "Booth"⟩] }

/-- An event offering only deliverable 2. -/
def c3event : EventProfile :=
  { baseEvent with deliverables_offered := [⟨2, "Booth"⟩] }

/-- A store holding `c3brand` under id 1 and `c3event` under id 2. -/
def c3db : Database :=
  { noDb with brandProfile := fun i => if i = 1 then some c3brand else none,
              eventProfile := fun i => if i = 2 then some c3event else none,
              eventOrgs := [2], brandOrgs := [1] }

/-- A brand offering 5000 to 25000 per event. -/
def c4brand : BrandProfile :=
  { baseBrand with spend_per_event_min := some 5000,
                   spend_per_event_max := some 25000 }

/-- A store holding `c4brand` under id 1 and the package-less default event
under id 2. -/
def c4db : Database :=
  { noDb with brandProfile := fun i => if i = 1 then some c4brand else none,
              eventProfile := fun i => if i = 2 then some baseEvent else none,
              eventOrgs := [2], brandOrgs := [1] }

/-- A weight set whose sum over {geo, budget, category} is 0.301, which does
not survive two-decimal rounding. -/
def c5weights : Weights :=
  { category := 0.1, geo := 0.101, budget := 0.1, audience := 0.2,
    deliverables := 0.15 }

/-- A brand referencing weight set 1. -/
def c5brand : BrandProfile :=
  { baseBrand with default_match_weight_set_id := some 1 }

/-- A store resolving weight set 1 to `c5weights`. -/
def c5db : Database :=
  { noDb with brandProfile := fun i => if i = 1 then some c5brand else none,
              eventProfile := fun i => if i = 2 then some baseEvent else none,
              weightSet := fun i => if i = 1 then some c5weights else none,
              eventOrgs := [2], brandOrgs := [1] }

/-- An event profile with a given org id (all other fields default). -/
def c6event (i : Nat) : EventProfile :=
  { baseEvent with event_org_id := i }

/-- A brand profile with a given org id (all other fields default). -/
def c6brand (i : Nat) : BrandProfile :=
  { baseBrand with brand_org_id := i }

/-- A store with one brand (id 1) and two identical events (ids 3 and 5), so
both events score the same percentage and the tie is broken by enumeration
order; the brand listing holds ids 1 and 4 for the reverse direction. -/
def c6db : Database :=
  { noDb with
      brandProfile := fun i => if i = 1 then some (c6brand 1) else
        (if i = 4 then some (c6brand 4) else none),
      eventProfile := fun i => if i = 3 then some (c6event 3) else
        (if i = 5 then some (c6event 5) else none),
      eventOrgs := [3, 5], brandOrgs := [1, 4] }

/-- The non-negativity requirement on a weight set's five weights. -/
def weightsNonneg (w : Weights) : Prop :=
  0 ≤ w.category ∧ 0 ≤ w.geo ∧ 0 ≤ w.budget ∧ 0 ≤ w.audience ∧ 0 ≤ w.deliverables

/-- The aggregation contract of one evaluation result: totals are the rounded
sums over its own breakdown, the percentage is the rounded guarded ratio, and
the percentage lies within [0, 100]. -/
def aggregationOk (r : MatchResult) : Prop :=
  r.max_score = round2 ((r.breakdown.map (fun p => p.2.weight)).sum) ∧
  r.total_score = round2 ((r.breakdown.map (fun p => p.2.contribution)).sum) ∧
  r.match_percentage = round2
    (if 0 < (r.breakdown.map (fun p => p.2.weight)).sum then
      (r.breakdown.map (fun p => p.2.contribution)).sum /
        (r.breakdown.map (fun p => p.2.weight)).sum * 100
    else 0) ∧
  0 ≤ r.match_percentage ∧ r.match_percentage ≤ 100

/-- Ranking contract of the brand-side matches list: non-increasing
percentage, ties in ascending counterpart event org id. -/
def rankedOkBrandSide (l : List MatchResult) : Prop :=
  l.Pairwise (fun a b => b.match_percentage ≤ a.match_percentage ∧
    (a.match_percentage = b.match_percentage → a.event_org_id < b.event_org_id))

/-- Ranking contract of the event-side matches list: non-increasing
percentage, ties in ascending counterpart brand org id. -/
def rankedOkEventSide (l : List EventMatchItem) : Prop :=
  l.Pairwise (fun a b => b.match_percentage ≤ a.match_percentage ∧
    (a.match_percentage = b.match_percentage → a.brand_org_id < b.brand_org_id))

/-- C1 witness: the concrete result of evaluating brand 1 against event 2 on
the fixture store. -/
def c1result : MatchResult :=
  buildMatchResult baseEvent (brandPathBreakdown c1db baseBrand baseEvent)

/-! ### General helper lemmas -/

theorem listContains_of_isPrefixOf {pat l : List Char} (h : pat.isPrefixOf l = true) :
    listContains pat l = true := by
  cases l with
  | nil =>
      cases pat with
      | nil => rfl
      | cons c t => simp [List.isPrefixOf] at h
  | cons c t => simp [listContains, h]

theorem listContains_append_left {pat l : List Char} (r : List Char)
    (h : listContains pat l = true) : listContains pat (l ++ r) = true := by
  induction l with
  | nil =>
      have hp : pat = [] := by simpa [listContains] using h
      subst hp
      cases r with
      | nil => rfl
      | cons c t => simp [listContains, List.isPrefixOf]
  | cons c t ih =>
      simp only [listContains, Bool.or_eq_true] at h
      rcases h with h | h
      · have hp : pat <+: c :: t := by simpa using h
        have hp2 : pat <+: (c :: t) ++ r := hp.trans (List.prefix_append _ _)
        rw [List.cons_append]
        simp only [listContains, Bool.or_eq_true]
        left
        simpa using hp2
      · rw [List.cons_append]
        simp only [listContains, Bool.or_eq_true]
        right
        exact ih h

theorem strContains_append_left {a : String} (s : String) {pat : String}
    (h : strContains a pat = true) : strContains (a ++ s) pat = true := by
  rcases a with ⟨la⟩
  rcases s with ⟨ls⟩
  exact listContains_append_left ls h

theorem append_ne_of_head_ne {a b : String} (s : String) {ca cb : Char}
    (ha : a.data.head? = some ca) (hb : b.data.head? = some cb) (hne : ca ≠ cb) :
    a ++ s ≠ b := by
  rcases a with ⟨la⟩
  rcases b with ⟨lb⟩
  rcases s with ⟨ls⟩
  intro h
  have hd : la ++ ls = lb := congrArg String.data h
  cases la with
  | nil => simp at ha
  | cons c t =>
      cases lb with
      | nil => simp at hb
      | cons c2 t2 =>
          have h1 : c = ca := by simpa using ha
          have h2 : c2 = cb := by simpa using hb
          have h3 : c = c2 := by
            have := congrArg List.head? hd
            simpa using this
          exact hne (h1 ▸ h2 ▸ h3)

theorem roundHalfEven_nonneg {q : ℚ} (h : 0 ≤ q) : 0 ≤ roundHalfEven q := by
  have hf : (0 : ℤ) ≤ ⌊q⌋ := Int.floor_nonneg.mpr h
  simp only [roundHalfEven]
  split_ifs <;> omega

theorem roundHalfEven_le {q : ℚ} {n : ℤ} (hq : q ≤ (n : ℚ)) : roundHalfEven q ≤ n := by
  have hf : ⌊q⌋ ≤ n := by
    have := Int.floor_le_floor hq
    simpa using this
  have hup : 1 / 2 ≤ q - (⌊q⌋ : ℚ) → ⌊q⌋ + 1 ≤ n := by
    intro hr
    by_contra hc
    have hnf : n ≤ ⌊q⌋ := by omega
    have hqn : q ≤ (⌊q⌋ : ℚ) := le_trans hq (by exact_mod_cast hnf)
    linarith
  simp only [roundHalfEven]
  split_ifs with h1 h2 h3
  · exact hf
  · exact hup (le_of_lt h2)
  · exact hf
  · exact hup (not_lt.mp h1)

theorem round2_nonneg {q : ℚ} (h : 0 ≤ q) : 0 ≤ round2 q := by
  have h1 : 0 ≤ roundHalfEven (q * 100) := roundHalfEven_nonneg (by positivity)
  have h2 : (0 : ℚ) ≤ (roundHalfEven (q * 100) : ℚ) := by exact_mod_cast h1
  unfold round2
  positivity

theorem round2_le_hundred {q : ℚ} (h : q ≤ 100) : round2 q ≤ 100 := by
  have h1 : q * 100 ≤ ((10000 : ℤ) : ℚ) := by push_cast; linarith
  have h2 : roundHalfEven (q * 100) ≤ 10000 := roundHalfEven_le h1
  have h3 : ((roundHalfEven (q * 100) : ℤ) : ℚ) ≤ 10000 := by exact_mod_cast h2
  unfold round2
  rw [div_le_iff (by norm_num : (0 : ℚ) < 100)]
  linarith

theorem meanOrHalf_nonneg {s : List ℚ} (h : ∀ x ∈ s, 0 ≤ x) : 0 ≤ meanOrHalf s := by
  unfold meanOrHalf
  split_ifs with he
  · norm_num
  · exact div_nonneg (List.sum_nonneg h) (by positivity)

theorem meanOrHalf_le_one {s : List ℚ} (h : ∀ x ∈ s, x ≤ 1) : meanOrHalf s ≤ 1 := by
  unfold meanOrHalf
  split_ifs with he
  · norm_num
  · have hne : s ≠ [] := by simpa using he
    have hlen : 0 < (s.length : ℚ) := by
      have := List.length_pos.mpr hne
      exact_mod_cast this
    rw [div_le_one hlen]
    have := List.sum_le_card_nsmul s 1 h
    simpa using this

theorem sum_le_length_of_le_one {s : List ℚ} (h : ∀ x ∈ s, x ≤ 1) :
    s.sum ≤ (s.length : ℚ) := by
  have := List.sum_le_card_nsmul s 1 h
  simpa using this

theorem meanOrHalf_le_insert_one (a b : List ℚ)
    (h : ∀ x ∈ a ++ b, 0 ≤ x ∧ x ≤ 1) :
    meanOrHalf (a ++ b) ≤ meanOrHalf (a ++ 1 :: b) := by
  have hne : ¬ (a ++ 1 :: b).isEmpty = true := by simp
  by_cases hab : (a ++ b).isEmpty = true
  · have ha : a = [] := by
      rcases List.append_eq_nil.mp (by simpa using hab) with ⟨h1, _⟩; exact h1
    have hb : b = [] := by
      rcases List.append_eq_nil.mp (by simpa using hab) with ⟨_, h2⟩; exact h2
    subst ha; subst hb
    simp [meanOrHalf]
    norm_num
  · unfold meanOrHalf
    rw [if_neg hab, if_neg hne]
    have hlen : 0 < ((a ++ b).length : ℚ) := by
      have hne2 : a ++ b ≠ [] := by simpa using hab
      have := List.length_pos.mpr hne2
      exact_mod_cast this
    have hlen2 : 0 < ((a ++ 1 :: b).length : ℚ) := by
      have : 0 < (a ++ 1 :: b).length := by simp
      exact_mod_cast this
    rw [div_le_div_iff hlen hlen2]
    have hsum : (a ++ 1 :: b).sum = (a ++ b).sum + 1 := by
      simp [List.sum_append]
      ring
    have hlen3 : ((a ++ 1 :: b).length : ℚ) = ((a ++ b).length : ℚ) + 1 := by
      push_cast [List.length_append, List.length_cons]
      ring
    have hbound : (a ++ b).sum ≤ ((a ++ b).length : ℚ) :=
      sum_le_length_of_le_one (fun x hx => (h x hx).2)
    rw [hsum, hlen3]
    nlinarith [hbound, hlen]

theorem meanOrHalf_mid_le (a b : List ℚ) (x : ℚ) (hx : x ≤ 1) :
    meanOrHalf (a ++ x :: b) ≤ meanOrHalf (a ++ 1 :: b) := by
  unfold meanOrHalf
  have h1 : ¬ (a ++ x :: b).isEmpty = true := by simp
  have h2 : ¬ (a ++ 1 :: b).isEmpty = true := by simp
  rw [if_neg h1, if_neg h2]
  have hlen : ((a ++ x :: b).length : ℚ) = ((a ++ 1 :: b).length : ℚ) := by
    simp
  rw [hlen]
  have hlen2 : 0 < ((a ++ 1 :: b).length : ℚ) := by
    have : 0 < (a ++ 1 :: b).length := by simp
    exact_mod_cast this
  have hsum : (a ++ x :: b).sum ≤ (a ++ 1 :: b).sum := by
    simp only [List.sum_append, List.sum_cons]
    linarith
  exact div_le_div_of_le_of_nonneg hsum (le_of_lt hlen2)

theorem mem_insertByDesc {α : Type} (key : α → ℚ) (x z : α) (l : List α)
    (h : z ∈ insertByDesc key x l) : z = x ∨ z ∈ l := by
  induction l with
  | nil => simpa [insertByDesc] using h
  | cons y t ih =>
      simp only [insertByDesc] at h
      split_ifs at h with hlt
      · rcases List.mem_cons.mp h with h | h
        · right; exact h ▸ List.mem_cons_self _ _
        · rcases ih h with h | h
          · left; exact h
          · right; exact List.mem_cons_of_mem _ h
      · rcases List.mem_cons.mp h with h | h
        · left; exact h
        · right; exact h

theorem insertByDesc_pairwise {α : Type} (key : α → ℚ) (S : α → α → Prop)
    (x : α) (l : List α)
    (hl : l.Pairwise (fun a b => key b < key a ∨ (key a = key b ∧ S a b)))
    (hx : ∀ y ∈ l, S x y) :
    (insertByDesc key x l).Pairwise
      (fun a b => key b < key a ∨ (key a = key b ∧ S a b)) := by
  induction l with
  | nil => simp [insertByDesc]
  | cons y t ih =>
      simp only [insertByDesc]
      split_ifs with hlt
      · rw [List.pairwise_cons] at hl ⊢
        obtain ⟨hy, ht⟩ := hl
        refine ⟨?_, ih ht (fun z hz => hx z (List.mem_cons_of_mem _ hz))⟩
        intro z hz
        rcases mem_insertByDesc key x z t hz with rfl | hz2
        · exact Or.inl hlt
        · exact hy z hz2
      · rw [List.pairwise_cons] at hl
        obtain ⟨hy, ht⟩ := hl
        rw [List.pairwise_cons]
        constructor
        · intro z hz
          rcases List.mem_cons.mp hz with rfl | hz2
          · rcases lt_or_eq_of_le (not_lt.mp hlt) with h | h
            · exact Or.inl h
            · exact Or.inr ⟨h.symm, hx z (List.mem_cons_self _ _)⟩
          · rcases hy z hz2 with h | ⟨heq, _⟩
            · exact Or.inl (lt_of_lt_of_le h (not_lt.mp hlt))
            · rcases lt_or_eq_of_le (not_lt.mp hlt) with h2 | h2
              · exact Or.inl (heq ▸ h2)
              · exact Or.inr ⟨heq ▸ h2.symm, hx z (List.mem_cons_of_mem _ hz2)⟩
        · rw [List.pairwise_cons]
          exact ⟨hy, ht⟩

theorem mem_sortByDesc {α : Type} (key : α → ℚ) (z : α) (l : List α)
    (h : z ∈ sortByDesc key l) : z ∈ l := by
  induction l with
  | nil => simpa [sortByDesc] using h
  | cons x t ih =>
      simp only [sortByDesc] at h
      rcases mem_insertByDesc key x z _ h with h | h
      · exact h ▸ List.mem_cons_self _ _
      · exact List.mem_cons_of_mem _ (ih h)

theorem sortByDesc_pairwise {α : Type} (key : α → ℚ) (S : α → α → Prop)
    (l : List α) (hl : l.Pairwise S) :
    (sortByDesc key l).Pairwise
      (fun a b => key b < key a ∨ (key a = key b ∧ S a b)) := by
  induction l with
  | nil => simp [sortByDesc]
  | cons x t ih =>
      rw [List.pairwise_cons] at hl
      obtain ⟨hx, ht⟩ := hl
      exact insertByDesc_pairwise key S x (sortByDesc key t) (ih ht)
        (fun z hz => hx z (mem_sortByDesc key z t hz))

/-! ### Scorer-level lemmas -/

theorem filter_ratio_bounds {α : Type} (l : List α) (p : α → Bool)
    (h : (l.filter p).isEmpty = false) :
    0 ≤ ((l.filter p).length : ℚ) / (l.length : ℚ) ∧
      ((l.filter p).length : ℚ) / (l.length : ℚ) ≤ 1 := by
  have hne : l.filter p ≠ [] := by simpa using h
  have h0 : 0 < (l.filter p).length := List.length_pos.mpr hne
  have h1 : (l.filter p).length ≤ l.length := List.length_filter_le _ _
  have hl : 0 < (l.length : ℚ) := by
    have : 0 < l.length := lt_of_lt_of_le h0 h1
    exact_mod_cast this
  constructor
  · positivity
  · rw [div_le_one hl]
    exact_mod_cast h1

theorem score_geography_weight_eq (db : Database) (ec : Option Nat)
    (bp : BrandProfile) (w : ℚ) : (score_geography db ec bp w).weight = w := by
  simp only [score_geography]
  split_ifs <;> rfl

theorem score_geography_contribution_eq (db : Database) (ec : Option Nat)
    (bp : BrandProfile) (w : ℚ) :
    (score_geography db ec bp w).contribution =
      (score_geography db ec bp w).weight * (score_geography db ec bp w).match_factor := by
  simp only [score_geography]
  split_ifs <;> simp

theorem score_geography_factor_bounds (db : Database) (ec : Option Nat)
    (bp : BrandProfile) (w : ℚ) :
    0 ≤ (score_geography db ec bp w).match_factor ∧
      (score_geography db ec bp w).match_factor ≤ 1 := by
  simp only [score_geography]
  split_ifs <;> norm_num

theorem score_budget_weight_eq (e1 e2 s1 s2 : Option ℚ) (w r : ℚ) :
    (score_budget e1 e2 s1 s2 w r).weight = w := by
  rcases e1 with _ | emin <;> rcases e2 with _ | emax <;>
    simp only [score_budget] <;>
    first
    | rfl
    | (split_ifs <;> rfl)

theorem score_budget_contribution_eq (e1 e2 s1 s2 : Option ℚ) (w r : ℚ) :
    (score_budget e1 e2 s1 s2 w r).contribution =
      (score_budget e1 e2 s1 s2 w r).weight * (score_budget e1 e2 s1 s2 w r).match_factor := by
  rcases e1 with _ | emin <;> rcases e2 with _ | emax <;>
    simp only [score_budget] <;>
    first
    | rfl
    | (split_ifs <;> rfl)

theorem score_budget_factor_bounds (e1 e2 s1 s2 : Option ℚ) (w r : ℚ) :
    0 ≤ (score_budget e1 e2 s1 s2 w r).match_factor ∧
      (score_budget e1 e2 s1 s2 w r).match_factor ≤ 1 := by
  rcases e1 with _ | emin <;> rcases e2 with _ | emax <;>
    simp only [score_budget] <;>
    first
    | (split_ifs <;> norm_num)
    | norm_num

theorem score_categories_weight_eq (ev pf av : List CatRef) (w : ℚ) :
    (score_categories ev pf av w).weight = w := by
  simp only [score_categories]
  split_ifs <;> rfl

theorem score_categories_contribution_eq (ev pf av : List CatRef) (w : ℚ) :
    (score_categories ev pf av w).contribution =
      (score_categories ev pf av w).weight * (score_categories ev pf av w).match_factor := by
  simp only [score_categories]
  split_ifs <;> simp

theorem score_categories_factor_bounds (ev pf av : List CatRef) (w : ℚ) :
    0 ≤ (score_categories ev pf av w).match_factor ∧
      (score_categories ev pf av w).match_factor ≤ 1 := by
  simp only [score_categories]
  split_ifs <;> norm_num

theorem score_audience_overlap_weight_eq (ead : List AgeRef) (eat : List AudTypeRef)
    (eit : List TagRef) (bab : List AgeRef) (bat : List AudTypeRef)
    (bti : List TagRef) (w : ℚ) :
    (score_audience_overlap ead eat eit bab bat bti w).weight = w := rfl

theorem score_audience_overlap_contribution_eq (ead : List AgeRef) (eat : List AudTypeRef)
    (eit : List TagRef) (bab : List AgeRef) (bat : List AudTypeRef)
    (bti : List TagRef) (w : ℚ) :
    (score_audience_overlap ead eat eit bab bat bti w).contribution =
      (score_audience_overlap ead eat eit bab bat bti w).weight *
        (score_audience_overlap ead eat eit bab bat bti w).match_factor := rfl

theorem score_audience_overlap_factor_bounds (ead : List AgeRef) (eat : List AudTypeRef)
    (eit : List TagRef) (bab : List AgeRef) (bat : List AudTypeRef)
    (bti : List TagRef) (w : ℚ) :
    0 ≤ (score_audience_overlap ead eat eit bab bat bti w).match_factor ∧
      (score_audience_overlap ead eat eit bab bat bti w).match_factor ≤ 1 := by
  simp only [score_audience_overlap]
  split_ifs <;> norm_num [meanOrHalf]

theorem score_deliverables_weight_eq (ed wd md : List DelivRef) (w : ℚ) :
    (score_deliverables ed wd md w).weight = w := by
  simp only [score_deliverables]
  split_ifs <;> rfl

theorem score_deliverables_contribution_eq (ed wd md : List DelivRef) (w : ℚ) :
    (score_deliverables ed wd md w).contribution =
      (score_deliverables ed wd md w).weight * (score_deliverables ed wd md w).match_factor := by
  simp only [score_deliverables]
  split_ifs <;> simp

theorem score_deliverables_factor_bounds (ed wd md : List DelivRef) (w : ℚ) :
    0 ≤ (score_deliverables ed wd md w).match_factor ∧
      (score_deliverables ed wd md w).match_factor ≤ 1 := by
  simp only [score_deliverables]
  split_ifs with h1 h2 h3 h4
  · norm_num
  · norm_num
  · exact filter_ratio_bounds _ _ h4
  · norm_num
  · norm_num

/-- A score whose contribution is its weight times a factor in `[0, 1]` has a
contribution in `[0, weight]` whenever the weight is non-negative. -/
theorem contribution_bounds_of (s : Score) (w : ℚ) (hweq : s.weight = w)
    (hceq : s.contribution = s.weight * s.match_factor)
    (hf0 : 0 ≤ s.match_factor) (hf1 : s.match_factor ≤ 1) (hw : 0 ≤ w) :
    0 ≤ s.contribution ∧ s.contribution ≤ w := by
  rw [hceq, hweq]
  constructor
  · exact mul_nonneg hw hf0
  · calc w * s.match_factor ≤ w * 1 := mul_le_mul_of_nonneg_left hf1 hw
      _ = w := mul_one w

/-- An avoided-category hit (the source's `event_cat_ids & avoided_ids`)
forces the avoided branch of `score_categories`: factor 0 and an explanation
that contains the word "avoided". -/
theorem score_categories_avoided (ev pf av : List CatRef) (w : ℚ)
    (hav : (ev.map (fun c => c.category_id)).any
      (fun i => (av.map (fun c => c.category_id)).contains i) = true) :
    (score_categories ev pf av w).match_factor = 0 ∧
      strContains (score_categories ev pf av w).explanation "avoided" = true := by
  have hne : ev.isEmpty = false := by
    cases ev with
    | nil => simp at hav
    | cons a t => rfl
  simp only [score_categories, hne, Bool.false_eq_true, if_false, hav, if_true]
  exact ⟨trivial, strContains_append_left _ (by decide)⟩

/-! ### Evaluator inversion and rejection lemmas -/

theorem evaluate_brand_for_events_eq_some {db : Database} {bid eid : Nat}
    {r : MatchResult} (h : evaluate_brand_for_events db bid eid = some r) :
    ∃ brand event, db.brandProfile bid = some brand ∧
      db.eventProfile eid = some event ∧
      r = buildMatchResult event (brandPathBreakdown db brand event) := by
  unfold evaluate_brand_for_events at h
  cases hb : db.brandProfile bid with
  | none => rw [hb] at h; simp at h
  | some brand =>
    cases he : db.eventProfile eid with
    | none => rw [hb, he] at h; simp at h
    | some event =>
      rw [hb, he] at h
      simp only [Option.some_bind] at h
      refine ⟨brand, event, rfl, rfl, ?_⟩
      split_ifs at h with h1 h2 h3 <;>
        first
        | (rw [brandPathBreakdown]; exact (Option.some.inj h).symm)
        | (exact absurd h (by simp))

theorem evaluate_event_for_brands_eq_some {db : Database} {bid eid : Nat}
    {r : MatchResult} (h : evaluate_event_for_brands db bid eid = some r) :
    ∃ brand event, db.brandProfile bid = some brand ∧
      db.eventProfile eid = some event ∧
      r = buildMatchResult event (eventPathBreakdown db brand event) := by
  unfold evaluate_event_for_brands at h
  cases hb : db.brandProfile bid with
  | none => rw [hb] at h; simp at h
  | some brand =>
    cases he : db.eventProfile eid with
    | none => rw [hb, he] at h; simp at h
    | some event =>
      rw [hb, he] at h
      simp only [Option.some_bind] at h
      refine ⟨brand, event, rfl, rfl, ?_⟩
      split_ifs at h with h1 h2 <;>
        first
        | (rw [eventPathBreakdown]; exact (Option.some.inj h).symm)
        | (exact absurd h (by simp))

theorem evaluate_brand_for_events_avoided_none {db : Database} {bid eid : Nat}
    {brand : BrandProfile} {event : EventProfile}
    (hb : db.brandProfile bid = some brand) (he : db.eventProfile eid = some event)
    (hav : (event.categories.map (fun c => c.category_id)).any
      (fun i => (brand.avoided_categories.map (fun c => c.category_id)).contains i) = true) :
    evaluate_brand_for_events db bid eid = none := by
  obtain ⟨hf, hc⟩ := score_categories_avoided
    event.categories brand.preferred_categories brand.avoided_categories
    (loadWeights db brand.default_match_weight_set_id).category hav
  unfold evaluate_brand_for_events
  rw [hb, he]
  simp only [Option.some_bind]
  split_ifs with h1 h2 h3
  · rfl
  · rfl
  · rfl
  · exact absurd ⟨hf, hc⟩ h2

theorem evaluate_event_for_brands_avoided_none {db : Database} {bid eid : Nat}
    {brand : BrandProfile} {event : EventProfile}
    (hb : db.brandProfile bid = some brand) (he : db.eventProfile eid = some event)
    (hav : (event.categories.map (fun c => c.category_id)).any
      (fun i => (brand.avoided_categories.map (fun c => c.category_id)).contains i) = true) :
    evaluate_event_for_brands db bid eid = none := by
  obtain ⟨hf, hc⟩ := score_categories_avoided
    event.categories brand.preferred_categories brand.avoided_categories
    (loadWeights db brand.default_match_weight_set_id).category hav
  unfold evaluate_event_for_brands
  rw [hb, he]
  simp only [Option.some_bind]
  split_ifs with h1 h2
  · rfl
  · rfl
  · exact absurd ⟨hf, hc⟩ h2

theorem strHead_append_of_some {a : String} (b : String) {c : Char}
    (h : a.data.head? = some c) : (a ++ b).data.head? = some c := by
  rcases a with ⟨la⟩
  rcases b with ⟨lb⟩
  cases la with
  | nil => simp at h
  | cons x t => simpa using h

theorem str_ne_of_head_ne {s t : String} {c d : Char} (hs : s.data.head? = some c)
    (ht : t.data.head? = some d) (h : c ≠ d) : s ≠ t := by
  intro he
  subst he
  rw [hs] at ht
  exact h (Option.some.inj ht)

/-- With both event bounds supplied, `score_budget` never produces the
"unspecified" explanation: every branch's text starts with "Budget". -/
theorem score_budget_explanation_ne (emin emax : ℚ) (s1 s2 : Option ℚ) (w r : ℚ) :
    (score_budget (some emin) (some emax) s1 s2 w r).explanation ≠
      "Event budget not specified" := by
  simp only [score_budget]
  split_ifs <;>
    · refine str_ne_of_head_ne (c := 'B') (d := 'E') ?_ rfl (by decide)
      repeat
        first
        | rfl
        | apply strHead_append_of_some

/-- A missing must-have deliverable (or an empty offer) zeroes the factor and
fails the hard filter. -/
theorem score_deliverables_missing {ed wd md : List DelivRef} (w : ℚ)
    (hmiss : ((md.map (fun d => d.deliverable_type_id)).dedup.filter
      (fun i => ¬ (ed.map (fun d => d.deliverable_type_id)).contains i)).isEmpty = false) :
    (score_deliverables ed wd md w).match_factor = 0 ∧
      (score_deliverables ed wd md w).passed_hard_filter = some false := by
  simp only [score_deliverables, hmiss, eq_self_iff_true, if_true]
  split_ifs with h1
  · exact ⟨rfl, rfl⟩
  · exact ⟨rfl, rfl⟩

theorem DEFAULT_WEIGHTS_nonneg : weightsNonneg DEFAULT_WEIGHTS := by
  unfold weightsNonneg DEFAULT_WEIGHTS
  norm_num

theorem loadWeights_nonneg (db : Database) (wsid : Option Nat)
    (hdb : ∀ i ws, db.weightSet i = some ws → weightsNonneg ws) :
    weightsNonneg (loadWeights db wsid) := by
  cases wsid with
  | none => exact DEFAULT_WEIGHTS_nonneg
  | some i =>
      show weightsNonneg
        (if i = 0 then DEFAULT_WEIGHTS else (db.weightSet i).getD DEFAULT_WEIGHTS)
      split_ifs with h
      · exact DEFAULT_WEIGHTS_nonneg
      · cases hws : db.weightSet i with
        | none => simpa [hws] using DEFAULT_WEIGHTS_nonneg
        | some ws => simpa [hws] using hdb i ws hws

theorem buildMatchResult_event_org_id (e : EventProfile) (bd : List (String × Score)) :
    (buildMatchResult e bd).event_org_id = e.event_org_id := rfl

theorem buildMatchResult_breakdown (e : EventProfile) (bd : List (String × Score)) :
    (buildMatchResult e bd).breakdown = bd := rfl

theorem entry_bounds {s : Score} {w : ℚ} (hweq : s.weight = w)
    (hceq : s.contribution = s.weight * s.match_factor)
    (hf : 0 ≤ s.match_factor ∧ s.match_factor ≤ 1) (hw : 0 ≤ w) :
    0 ≤ s.contribution ∧ s.contribution ≤ s.weight := by
  obtain ⟨h0, h1⟩ := contribution_bounds_of s w hweq hceq hf.1 hf.2 hw
  exact ⟨h0, hweq ▸ h1⟩

theorem buildMatchResult_pct_bounds (e : EventProfile) (bd : List (String × Score))
    (hbd : ∀ p ∈ bd, 0 ≤ p.2.contribution ∧ p.2.contribution ≤ p.2.weight) :
    0 ≤ (buildMatchResult e bd).match_percentage ∧
      (buildMatchResult e bd).match_percentage ≤ 100 := by
  have hc0 : 0 ≤ (bd.map (fun p => p.2.contribution)).sum := by
    apply List.sum_nonneg
    intro x hx
    rcases List.mem_map.mp hx with ⟨p, hp, rfl⟩
    exact (hbd p hp).1
  have hcw : (bd.map (fun p => p.2.contribution)).sum ≤
      (bd.map (fun p => p.2.weight)).sum := by
    apply List.sum_le_sum
    intro p hp
    exact (hbd p hp).2
  have hq : 0 ≤ (if 0 < (bd.map (fun p => p.2.weight)).sum then
        (bd.map (fun p => p.2.contribution)).sum /
          (bd.map (fun p => p.2.weight)).sum * 100 else 0) ∧
      (if 0 < (bd.map (fun p => p.2.weight)).sum then
        (bd.map (fun p => p.2.contribution)).sum /
          (bd.map (fun p => p.2.weight)).sum * 100 else 0) ≤ 100 := by
    split_ifs with hpos
    · constructor
      · positivity
      · have hr : (bd.map (fun p => p.2.contribution)).sum /
            (bd.map (fun p => p.2.weight)).sum ≤ 1 := by
          rw [div_le_one hpos]
          exact hcw
        nlinarith
    · norm_num
  exact ⟨round2_nonneg hq.1, round2_le_hundred hq.2⟩

theorem brandPathBreakdown_contribution_bounds (db : Database)
    (brand : BrandProfile) (event : EventProfile)
    (hnn : weightsNonneg (loadWeights db brand.default_match_weight_set_id)) :
    ∀ p ∈ brandPathBreakdown db brand event,
      0 ≤ p.2.contribution ∧ p.2.contribution ≤ p.2.weight := by
  obtain ⟨hc, hg, hb, ha, hd⟩ := hnn
  intro p hp
  simp only [brandPathBreakdown, List.mem_cons, List.not_mem_nil, or_false] at hp
  rcases hp with rfl | rfl | rfl | rfl | rfl
  · exact entry_bounds (score_geography_weight_eq _ _ _ _)
      (score_geography_contribution_eq _ _ _ _) (score_geography_factor_bounds _ _ _ _) hg
  · exact entry_bounds (score_budget_weight_eq _ _ _ _ _ _)
      (score_budget_contribution_eq _ _ _ _ _ _) (score_budget_factor_bounds _ _ _ _ _ _) hb
  · exact entry_bounds (score_categories_weight_eq _ _ _ _)
      (score_categories_contribution_eq _ _ _ _) (score_categories_factor_bounds _ _ _ _) hc
  · exact entry_bounds (score_audience_overlap_weight_eq _ _ _ _ _ _ _)
      (score_audience_overlap_contribution_eq _ _ _ _ _ _ _)
      (score_audience_overlap_factor_bounds _ _ _ _ _ _ _) ha
  · exact entry_bounds (score_deliverables_weight_eq _ _ _ _)
      (score_deliverables_contribution_eq _ _ _ _) (score_deliverables_factor_bounds _ _ _ _) hd

theorem eventPathBreakdown_contribution_bounds (db : Database)
    (brand : BrandProfile) (event : EventProfile)
    (hnn : weightsNonneg (loadWeights db brand.default_match_weight_set_id)) :
    ∀ p ∈ eventPathBreakdown db brand event,
      0 ≤ p.2.contribution ∧ p.2.contribution ≤ p.2.weight := by
  obtain ⟨hc, hg, hb, _, _⟩ := hnn
  intro p hp
  simp only [eventPathBreakdown, List.mem_cons, List.not_mem_nil, or_false] at hp
  rcases hp with rfl | rfl | rfl
  · exact entry_bounds (score_geography_weight_eq _ _ _ _)
      (score_geography_contribution_eq _ _ _ _) (score_geography_factor_bounds _ _ _ _) hg
  · exact entry_bounds (score_budget_weight_eq _ _ _ _ _ _)
      (score_budget_contribution_eq _ _ _ _ _ _) (score_budget_factor_bounds _ _ _ _ _ _) hb
  · exact entry_bounds (score_categories_weight_eq _ _ _ _)
      (score_categories_contribution_eq _ _ _ _) (score_categories_factor_bounds _ _ _ _) hc

/-! ### The claims -/

/-- C9: for an id whose profile fetch returns absent, `get_matches_for_brand`
(respectively `get_matches_for_event`) returns the shape carrying the queried
id, the placeholder name "Unknown" and an empty matches list. -/
theorem c9_unknown_id_placeholder_shape (db : Database) (bid eid : Nat) :
    (db.brandProfile bid = none →
      get_matches_for_brand db bid =
        { brand_org_id := bid, brand_name := "Unknown", «matches» := [] }) ∧
    (db.eventProfile eid = none →
      get_matches_for_event db eid =
        { event_org_id := eid, event_name := "Unknown", «matches» := [] }) := by
  constructor
  · intro h
    unfold get_matches_for_brand
    rw [h]
  · intro h
    unfold get_matches_for_event
    rw [h]

/-- C9 witness: on the empty store, both batch entry points return the
placeholder shape for arbitrary ids 7 and 9. -/
theorem c9_unknown_id_placeholder_shape_witness :
    get_matches_for_brand noDb 7 =
      { brand_org_id := 7, brand_name := "Unknown", «matches» := [] } ∧
    get_matches_for_event noDb 9 =
      { event_org_id := 9, event_name := "Unknown", «matches» := [] } :=
  ⟨(c9_unknown_id_placeholder_shape noDb 7 9).1 rfl,
   (c9_unknown_id_placeholder_shape noDb 7 9).2 rfl⟩

/-- C2: whenever the event's categories intersect the brand's avoided
categories (by id), both directional evaluators reject the pair outright —
the preferred list plays no role, so a simultaneous preferred hit cannot
save the pair. -/
theorem c2_avoided_category_rejects (db : Database) (bid eid : Nat)
    (brand : BrandProfile) (event : EventProfile)
    (hb : db.brandProfile bid = some brand)
    (he : db.eventProfile eid = some event)
    (hav : (event.categories.map (fun c => c.category_id)).any
      (fun i => (brand.avoided_categories.map (fun c => c.category_id)).contains i) = true) :
    evaluate_event_for_brands db bid eid = none ∧
      evaluate_brand_for_events db bid eid = none :=
  ⟨evaluate_event_for_brands_avoided_none hb he hav,
   evaluate_brand_for_events_avoided_none hb he hav⟩

/-- C2 witness: a brand that simultaneously prefers and avoids category 1
still rejects an event carrying category 1, in both directions. -/
theorem c2_avoided_category_rejects_witness :
    (c2db.brandProfile 1 = some c2brand ∧ c2db.eventProfile 2 = some c2event ∧
      (c2event.categories.map (fun c => c.category_id)).any
        (fun i => (c2brand.avoided_categories.map (fun c => c.category_id)).contains i) = true ∧
      (c2event.categories.map (fun c => c.category_id)).any
        (fun i => (c2brand.preferred_categories.map (fun c => c.category_id)).contains i) = true) ∧
    evaluate_event_for_brands c2db 1 2 = none ∧
      evaluate_brand_for_events c2db 1 2 = none :=
  ⟨⟨rfl, rfl, by with_unfolding_all decide, by with_unfolding_all decide⟩,
   c2_avoided_category_rejects c2db 1 2 c2brand c2event rfl rfl
     (by with_unfolding_all decide)⟩

/-- C7 counterexample: with target cities {5, 9}, city 9 is among the brand's
active target city ids, yet on a store where city 9 does not resolve (for
instance because the city row is inactive) `check_geographic_match` returns
`matches = false` — the claimed equivalence fails. -/
theorem c7_local_geography_counterexample :
    ¬(((check_geographic_match noDb 9 c7brand).«matches» = true) ↔
      9 ∈ c7brand.target_cities.map (fun c => c.city_id)) := by
  with_unfolding_all decide

/-- C7 (amended): for a local-focus brand, when the event's city id resolves
in the geography store, `check_geographic_match` answers true exactly when
that id is among the brand's active target city ids, and a positive answer
always carries `match_level = "city"`. -/
theorem c7_local_geography (db : Database) (cid : Nat) (brand : BrandProfile)
    (geo : CityGeo) (hfocus : brand.geographic_focus_type = some "local")
    (hgeo : db.cityGeo cid = some geo) :
    (((check_geographic_match db cid brand).«matches» = true) ↔
      cid ∈ brand.target_cities.map (fun c => c.city_id)) ∧
    ((check_geographic_match db cid brand).«matches» = true →
      (check_geographic_match db cid brand).match_level = some "city") := by
  by_cases hmem : cid ∈ brand.target_cities.map (fun c => c.city_id)
  · simp [check_geographic_match, hgeo, hfocus, hmem]
  · simp [check_geographic_match, hgeo, hfocus, hmem]

/-- C7 witness: on a store where cities 7 and 9 resolve, the brand targeting
{5, 9} matches city 9 at city level and rejects city 7. -/
theorem c7_local_geography_witness :
    ((c7brand.geographic_focus_type = some "local" ∧ c7db.cityGeo 9 = some (c7geo 9)) ∧
      ((((check_geographic_match c7db 9 c7brand).«matches» = true) ↔
          9 ∈ c7brand.target_cities.map (fun c => c.city_id)) ∧
        ((check_geographic_match c7db 9 c7brand).«matches» = true →
          (check_geographic_match c7db 9 c7brand).match_level = some "city"))) ∧
    ((c7db.cityGeo 7 = some (c7geo 7)) ∧
      ((((check_geographic_match c7db 7 c7brand).«matches» = true) ↔
          7 ∈ c7brand.target_cities.map (fun c => c.city_id)) ∧
        ((check_geographic_match c7db 7 c7brand).«matches» = true →
          (check_geographic_match c7db 7 c7brand).match_level = some "city"))) ∧
    (check_geographic_match c7db 9 c7brand).«matches» = true ∧
    (check_geographic_match c7db 9 c7brand).match_level = some "city" ∧
    (check_geographic_match c7db 7 c7brand).«matches» = false :=
  ⟨⟨⟨rfl, rfl⟩, c7_local_geography c7db 9 c7brand (c7geo 9) rfl rfl⟩,
   ⟨rfl, c7_local_geography c7db 7 c7brand (c7geo 7) rfl rfl⟩,
   by with_unfolding_all decide, by with_unfolding_all decide,
   by with_unfolding_all decide⟩

/-- C1 counterexample: on a store where brand 1 matches event 2, the
`get_matches_for_brand` path produces a breakdown with the five criteria
(geography, budget, categories, audience, deliverables), not the claimed
three. -/
theorem c1_three_criteria_counterexample :
    ((get_matches_for_brand c1db 1).«matches».map
        (fun r => r.breakdown.map Prod.fst)) =
      [["geography", "budget", "categories", "audience", "deliverables"]] ∧
    ¬ ((get_matches_for_brand c1db 1).«matches».map
        (fun r => r.breakdown.map Prod.fst)) =
      [["geography", "budget", "categories"]] := by
  constructor
  · with_unfolding_all decide
  · with_unfolding_all decide

/-- C1 (amended): the evaluation behind `get_matches_for_brand`
(`evaluate_brand_for_events`) aggregates five criteria — geography, budget,
categories, audience, deliverables — and its `max_score` is the sum of those
five weights, rounded to two decimals. -/
theorem c1_brand_path_five_criteria (db : Database) (bid eid : Nat)
    (r : MatchResult) (h : evaluate_brand_for_events db bid eid = some r) :
    ∃ brand event, db.brandProfile bid = some brand ∧
      db.eventProfile eid = some event ∧
      r.breakdown.map Prod.fst =
        ["geography", "budget", "categories", "audience", "deliverables"] ∧
      r.max_score = round2
        ((loadWeights db brand.default_match_weight_set_id).geo +
          (loadWeights db brand.default_match_weight_set_id).budget +
          (loadWeights db brand.default_match_weight_set_id).category +
          (loadWeights db brand.default_match_weight_set_id).audience +
          (loadWeights db brand.default_match_weight_set_id).deliverables) := by
  obtain ⟨brand, event, hb, he, rfl⟩ := evaluate_brand_for_events_eq_some h
  refine ⟨brand, event, hb, he, rfl, ?_⟩
  show round2 (((brandPathBreakdown db brand event).map (fun p => p.2.weight)).sum) = _
  simp only [brandPathBreakdown, List.map_cons, List.map_nil, List.sum_cons,
    List.sum_nil, score_geography_weight_eq, score_budget_weight_eq,
    score_categories_weight_eq, score_audience_overlap_weight_eq,
    score_deliverables_weight_eq]
  congr 1
  ring

/-- C1 witness: on the fixture store the five-criterion shape is realised at
a concrete evaluation. -/
theorem c1_brand_path_five_criteria_witness :
    evaluate_brand_for_events c1db 1 2 = some c1result ∧
    (∃ brand event, c1db.brandProfile 1 = some brand ∧
      c1db.eventProfile 2 = some event ∧
      c1result.breakdown.map Prod.fst =
        ["geography", "budget", "categories", "audience", "deliverables"] ∧
      c1result.max_score = round2
        ((loadWeights c1db brand.default_match_weight_set_id).geo +
          (loadWeights c1db brand.default_match_weight_set_id).budget +
          (loadWeights c1db brand.default_match_weight_set_id).category +
          (loadWeights c1db brand.default_match_weight_set_id).audience +
          (loadWeights c1db brand.default_match_weight_set_id).deliverables)) := by
  have h : evaluate_brand_for_events c1db 1 2 = some c1result := by
    with_unfolding_all rfl
  exact ⟨h, c1_brand_path_five_criteria c1db 1 2 c1result h⟩

/-- C3 counterexample: brand 1 declares must-have deliverable 1, event 2 does
not offer it (while offering every wanted deliverable), yet with the default
rule set (`enforce_must_have_deliverables = false`) the pair is evaluated to
a result and appears in the brand's match list — it is not rejected. -/
theorem c3_must_have_counterexample :
    ((c3brand.must_have_deliverables.map (fun d => d.deliverable_type_id)).dedup.filter
      (fun i => ¬ (c3event.deliverables_offered.map
        (fun d => d.deliverable_type_id)).contains i)).isEmpty = false ∧
    ((c3brand.wanted_deliverables.map (fun d => d.deliverable_type_id)).dedup.filter
      (fun i => ¬ (c3event.deliverables_offered.map
        (fun d => d.deliverable_type_id)).contains i)).isEmpty = true ∧
    (evaluate_brand_for_events c3db 1 2).isSome = true ∧
    (get_matches_for_brand c3db 1).«matches».length = 1 := by
  refine ⟨?_, ?_, ?_, ?_⟩ <;> with_unfolding_all decide

/-- C3 (amended): a missing must-have deliverable zeroes the deliverables
criterion and fails its hard filter in every non-rejected result, and when
the effective rule set sets `enforce_must_have_deliverables` the pair is
rejected outright. -/
theorem c3_must_have_hard_filter (db : Database) (bid eid : Nat)
    (brand : BrandProfile) (event : EventProfile)
    (hb : db.brandProfile bid = some brand)
    (he : db.eventProfile eid = some event)
    (hmiss : ((brand.must_have_deliverables.map (fun d => d.deliverable_type_id)).dedup.filter
      (fun i => ¬ (event.deliverables_offered.map
        (fun d => d.deliverable_type_id)).contains i)).isEmpty = false) :
    (∀ r, evaluate_brand_for_events db bid eid = some r →
      ("deliverables", score_deliverables event.deliverables_offered
          brand.wanted_deliverables brand.must_have_deliverables
          (loadWeights db brand.default_match_weight_set_id).deliverables) ∈ r.breakdown ∧
      (score_deliverables event.deliverables_offered brand.wanted_deliverables
          brand.must_have_deliverables
          (loadWeights db brand.default_match_weight_set_id).deliverables).match_factor = 0 ∧
      (score_deliverables event.deliverables_offered brand.wanted_deliverables
          brand.must_have_deliverables
          (loadWeights db brand.default_match_weight_set_id).deliverables).passed_hard_filter =
        some false) ∧
    ((loadRules db brand.default_match_rule_set_id).enforce_must_have_deliverables = true →
      evaluate_brand_for_events db bid eid = none) := by
  obtain ⟨hf0, hphf⟩ := score_deliverables_missing
    (loadWeights db brand.default_match_weight_set_id).deliverables hmiss
  constructor
  · intro r h
    obtain ⟨brand', event', hb', he', rfl⟩ := evaluate_brand_for_events_eq_some h
    rw [hb] at hb'
    rw [he] at he'
    obtain rfl : brand' = brand := (Option.some.inj hb').symm
    obtain rfl : event' = event := (Option.some.inj he').symm
    refine ⟨?_, hf0, hphf⟩
    rw [buildMatchResult_breakdown]
    simp [brandPathBreakdown]
  · intro henf
    unfold evaluate_brand_for_events
    rw [hb, he]
    simp only [Option.some_bind]
    split_ifs with h1 h2 h3
    · rfl
    · rfl
    · rfl
    · exact absurd ⟨henf, by rw [hphf]; rfl⟩ h3

/-- C3 witness: the fixture pair realises both halves — with default rules the
result carries the zeroed hard-failed deliverables entry, and turning the
enforcement flag on rejects the pair. -/
theorem c3_must_have_hard_filter_witness :
    (c3db.brandProfile 1 = some c3brand ∧ c3db.eventProfile 2 = some c3event ∧
      ((c3brand.must_have_deliverables.map (fun d => d.deliverable_type_id)).dedup.filter
        (fun i => ¬ (c3event.deliverables_offered.map
          (fun d => d.deliverable_type_id)).contains i)).isEmpty = false) ∧
    ((∀ r, evaluate_brand_for_events c3db 1 2 = some r →
      ("deliverables", score_deliverables c3event.deliverables_offered
          c3brand.wanted_deliverables c3brand.must_have_deliverables
          (loadWeights c3db c3brand.default_match_weight_set_id).deliverables) ∈ r.breakdown ∧
      (score_deliverables c3event.deliverables_offered c3brand.wanted_deliverables
          c3brand.must_have_deliverables
          (loadWeights c3db c3brand.default_match_weight_set_id).deliverables).match_factor = 0 ∧
      (score_deliverables c3event.deliverables_offered c3brand.wanted_deliverables
          c3brand.must_have_deliverables
          (loadWeights c3db c3brand.default_match_weight_set_id).deliverables).passed_hard_filter =
        some false) ∧
    ((loadRules c3db c3brand.default_match_rule_set_id).enforce_must_have_deliverables = true →
      evaluate_brand_for_events c3db 1 2 = none)) :=
  ⟨⟨rfl, rfl, by with_unfolding_all decide⟩,
   c3_must_have_hard_filter c3db 1 2 c3brand c3event rfl rfl
     (by with_unfolding_all decide)⟩

/-- C4 counterexample: event 2 has no package bounds, brand 1 offers
5000-25000; the evaluators coalesce the absent bounds to 0, so the budget
criterion scores 0.0 (no overlap, gap 5000 over threshold 2000) — not the
claimed 0.5 "unspecified" neutral. -/
theorem c4_absent_bounds_counterexample :
    baseEvent.package_min = none ∧ baseEvent.package_max = none ∧
    ((evaluate_brand_for_events c4db 1 2).map
        (fun r => r.breakdown.map (fun p => (p.1, p.2.match_factor)))) =
      some [("geography", 0), ("budget", 0), ("categories", 1/2),
            ("audience", 1/2), ("deliverables", 0)] := by
  refine ⟨rfl, rfl, ?_⟩
  with_unfolding_all decide

/-- C4 (amended): when the event's `package_min` or `package_max` is absent,
the budget entry of every non-rejected brand-path result is `score_budget`
applied to the bounds with absent values coalesced to 0 — the scorer's 0.5
"unspecified" branch (and its explanation) is unreachable through this
path. -/
theorem c4_absent_bounds_coalesced (db : Database) (bid eid : Nat)
    (brand : BrandProfile) (event : EventProfile)
    (hb : db.brandProfile bid = some brand)
    (he : db.eventProfile eid = some event)
    (habs : event.package_min = none ∨ event.package_max = none) :
    ∀ r, evaluate_brand_for_events db bid eid = some r →
      ("budget", score_budget (some (pyOrZero event.package_min))
          (some (pyOrZero event.package_max))
          (some (pyOrZero brand.spend_per_event_min))
          (some (pyOrZero brand.spend_per_event_max))
          (loadWeights db brand.default_match_weight_set_id).budget
          (loadRules db brand.default_match_rule_set_id).budget_near_boundary_ratio)
        ∈ r.breakdown ∧
      (score_budget (some (pyOrZero event.package_min))
          (some (pyOrZero event.package_max))
          (some (pyOrZero brand.spend_per_event_min))
          (some (pyOrZero brand.spend_per_event_max))
          (loadWeights db brand.default_match_weight_set_id).budget
          (loadRules db brand.default_match_rule_set_id).budget_near_boundary_ratio).explanation
        ≠ "Event budget not specified" := by
  intro r h
  obtain ⟨brand', event', hb', he', rfl⟩ := evaluate_brand_for_events_eq_some h
  rw [hb] at hb'
  rw [he] at he'
  obtain rfl : brand' = brand := (Option.some.inj hb').symm
  obtain rfl : event' = event := (Option.some.inj he').symm
  constructor
  · rw [buildMatchResult_breakdown]
    simp [brandPathBreakdown]
  · exact score_budget_explanation_ne _ _ _ _ _ _

/-- C4 witness: the fixture pair realises the amended claim at the concrete
evaluation. -/
theorem c4_absent_bounds_coalesced_witness :
    (c4db.brandProfile 1 = some c4brand ∧ c4db.eventProfile 2 = some baseEvent ∧
      baseEvent.package_min = none) ∧
    (∀ r, evaluate_brand_for_events c4db 1 2 = some r →
      ("budget", score_budget (some (pyOrZero baseEvent.package_min))
          (some (pyOrZero baseEvent.package_max))
          (some (pyOrZero c4brand.spend_per_event_min))
          (some (pyOrZero c4brand.spend_per_event_max))
          (loadWeights c4db c4brand.default_match_weight_set_id).budget
          (loadRules c4db c4brand.default_match_rule_set_id).budget_near_boundary_ratio)
        ∈ r.breakdown ∧
      (score_budget (some (pyOrZero baseEvent.package_min))
          (some (pyOrZero baseEvent.package_max))
          (some (pyOrZero c4brand.spend_per_event_min))
          (some (pyOrZero c4brand.spend_per_event_max))
          (loadWeights c4db c4brand.default_match_weight_set_id).budget
          (loadRules c4db c4brand.default_match_rule_set_id).budget_near_boundary_ratio).explanation
        ≠ "Event budget not specified") :=
  ⟨⟨rfl, rfl, rfl⟩,
   c4_absent_bounds_coalesced c4db 1 2 c4brand baseEvent rfl rfl (Or.inl rfl)⟩

/-- C10: both evaluators coalesce every absent budget bound to 0 before
calling the budget scorer — each non-rejected result's budget entry is
`score_budget` applied to four present values (so the scorer's numeric
conversions never see an absent value, and its "unspecified" branch never
fires), and a brand without budget bounds is scored as the degenerate range
[0, 0]. -/
theorem c10_budget_bounds_coalesced (db : Database) (bid eid : Nat)
    (brand : BrandProfile) (event : EventProfile)
    (hb : db.brandProfile bid = some brand)
    (he : db.eventProfile eid = some event) :
    (∀ r, evaluate_brand_for_events db bid eid = some r →
      ("budget", score_budget (some (pyOrZero event.package_min))
          (some (pyOrZero event.package_max))
          (some (pyOrZero brand.spend_per_event_min))
          (some (pyOrZero brand.spend_per_event_max))
          (loadWeights db brand.default_match_weight_set_id).budget
          (loadRules db brand.default_match_rule_set_id).budget_near_boundary_ratio)
        ∈ r.breakdown) ∧
    (∀ r, evaluate_event_for_brands db bid eid = some r →
      ("budget", score_budget (some (pyOrZero event.package_min))
          (some (pyOrZero event.package_max))
          (some (pyOrZero brand.spend_per_event_min))
          (some (pyOrZero brand.spend_per_event_max))
          (loadWeights db brand.default_match_weight_set_id).budget
          (loadRules db brand.default_match_rule_set_id).budget_near_boundary_ratio)
        ∈ r.breakdown) ∧
    (∀ emin emax s1 s2 w ratio, (score_budget (some emin) (some emax) s1 s2 w ratio).explanation
        ≠ "Event budget not specified") ∧
    (brand.spend_per_event_min = none → brand.spend_per_event_max = none →
      score_budget (some (pyOrZero event.package_min)) (some (pyOrZero event.package_max))
          (some (pyOrZero brand.spend_per_event_min))
          (some (pyOrZero brand.spend_per_event_max))
          (loadWeights db brand.default_match_weight_set_id).budget
          (loadRules db brand.default_match_rule_set_id).budget_near_boundary_ratio =
        score_budget (some (pyOrZero event.package_min)) (some (pyOrZero event.package_max))
          (some 0) (some 0)
          (loadWeights db brand.default_match_weight_set_id).budget
          (loadRules db brand.default_match_rule_set_id).budget_near_boundary_ratio) := by
  refine ⟨?_, ?_, ?_, ?_⟩
  · intro r h
    obtain ⟨brand', event', hb', he', rfl⟩ := evaluate_brand_for_events_eq_some h
    rw [hb] at hb'
    rw [he] at he'
    obtain rfl : brand' = brand := (Option.some.inj hb').symm
    obtain rfl : event' = event := (Option.some.inj he').symm
    rw [buildMatchResult_breakdown]
    simp [brandPathBreakdown]
  · intro r h
    obtain ⟨brand', event', hb', he', rfl⟩ := evaluate_event_for_brands_eq_some h
    rw [hb] at hb'
    rw [he] at he'
    obtain rfl : brand' = brand := (Option.some.inj hb').symm
    obtain rfl : event' = event := (Option.some.inj he').symm
    rw [buildMatchResult_breakdown]
    simp [eventPathBreakdown]
  · intro emin emax s1 s2 w ratio
    exact score_budget_explanation_ne emin emax s1 s2 w ratio
  · intro h1 h2
    rw [h1, h2]
    rfl

/-- C10 witness: realised on the fixture store with brand 1 (absent budget
bounds) and event 2. -/
theorem c10_budget_bounds_coalesced_witness :
    (c1db.brandProfile 1 = some baseBrand ∧ c1db.eventProfile 2 = some baseEvent ∧
      baseBrand.spend_per_event_min = none ∧ baseBrand.spend_per_event_max = none) ∧
    ((∀ r, evaluate_brand_for_events c1db 1 2 = some r →
      ("budget", score_budget (some (pyOrZero baseEvent.package_min))
          (some (pyOrZero baseEvent.package_max))
          (some (pyOrZero baseBrand.spend_per_event_min))
          (some (pyOrZero baseBrand.spend_per_event_max))
          (loadWeights c1db baseBrand.default_match_weight_set_id).budget
          (loadRules c1db baseBrand.default_match_rule_set_id).budget_near_boundary_ratio)
        ∈ r.breakdown) ∧
    (∀ r, evaluate_event_for_brands c1db 1 2 = some r →
      ("budget", score_budget (some (pyOrZero baseEvent.package_min))
          (some (pyOrZero baseEvent.package_max))
          (some (pyOrZero baseBrand.spend_per_event_min))
          (some (pyOrZero baseBrand.spend_per_event_max))
          (loadWeights c1db baseBrand.default_match_weight_set_id).budget
          (loadRules c1db baseBrand.default_match_rule_set_id).budget_near_boundary_ratio)
        ∈ r.breakdown) ∧
    (∀ emin emax s1 s2 w ratio, (score_budget (some emin) (some emax) s1 s2 w ratio).explanation
        ≠ "Event budget not specified") ∧
    (baseBrand.spend_per_event_min = none → baseBrand.spend_per_event_max = none →
      score_budget (some (pyOrZero baseEvent.package_min))
          (some (pyOrZero baseEvent.package_max))
          (some (pyOrZero baseBrand.spend_per_event_min))
          (some (pyOrZero baseBrand.spend_per_event_max))
          (loadWeights c1db baseBrand.default_match_weight_set_id).budget
          (loadRules c1db baseBrand.default_match_rule_set_id).budget_near_boundary_ratio =
        score_budget (some (pyOrZero baseEvent.package_min))
          (some (pyOrZero baseEvent.package_max)) (some 0) (some 0)
          (loadWeights c1db baseBrand.default_match_weight_set_id).budget
          (loadRules c1db baseBrand.default_match_rule_set_id).budget_near_boundary_ratio)) :=
  ⟨⟨rfl, rfl, rfl, rfl⟩, c10_budget_bounds_coalesced c1db 1 2 baseBrand baseEvent rfl rfl⟩

set_option maxRecDepth 8000 in
/-- C5 counterexample: with the non-negative weight set `c5weights`
(geo 0.101 + budget 0.1 + category 0.1 = 0.301), the returned `max_score` is
the two-decimal rounding 0.30, which differs from the exact sum of the
breakdown's weights — the claimed exact equality fails. -/
theorem c5_aggregation_counterexample :
    (0 ≤ c5weights.category ∧ 0 ≤ c5weights.geo ∧ 0 ≤ c5weights.budget ∧
      0 ≤ c5weights.audience ∧ 0 ≤ c5weights.deliverables) ∧
    ((evaluate_event_for_brands c5db 1 2).map (fun r => r.max_score)) =
      some (30 / 100 : ℚ) ∧
    ((evaluate_event_for_brands c5db 1 2).map
        (fun r => (r.breakdown.map (fun p => p.2.weight)).sum)) =
      some (301 / 1000 : ℚ) ∧
    (30 / 100 : ℚ) ≠ (301 / 1000 : ℚ) := by
  refine ⟨by norm_num [c5weights], ?_, ?_, by norm_num⟩ <;>
    with_unfolding_all decide

/-- C5 (amended): for every store whose weight sets are non-negative, each
non-rejected result of either evaluator satisfies the aggregation contract:
`max_score` and `total_score` are the two-decimal roundings of the sums of
the breakdown's weights and contributions, `match_percentage` is the rounded
guarded ratio (0 when the unrounded `max_score` is not positive), and the
percentage lies in [0, 100]. -/
theorem c5_aggregation (db : Database) (bid eid : Nat)
    (hw : ∀ i ws, db.weightSet i = some ws → weightsNonneg ws) :
    (∀ r, evaluate_brand_for_events db bid eid = some r → aggregationOk r) ∧
    (∀ r, evaluate_event_for_brands db bid eid = some r → aggregationOk r) := by
  constructor
  · intro r h
    obtain ⟨brand, event, hb, he, rfl⟩ := evaluate_brand_for_events_eq_some h
    have hnn := loadWeights_nonneg db brand.default_match_weight_set_id hw
    exact ⟨rfl, rfl, rfl,
      buildMatchResult_pct_bounds event (brandPathBreakdown db brand event)
        (brandPathBreakdown_contribution_bounds db brand event hnn)⟩
  · intro r h
    obtain ⟨brand, event, hb, he, rfl⟩ := evaluate_event_for_brands_eq_some h
    have hnn := loadWeights_nonneg db brand.default_match_weight_set_id hw
    exact ⟨rfl, rfl, rfl,
      buildMatchResult_pct_bounds event (eventPathBreakdown db brand event)
        (eventPathBreakdown_contribution_bounds db brand event hnn)⟩

/-- C5 witness: the aggregation contract instantiated on the fixture store,
whose only weight set is non-negative. -/
theorem c5_aggregation_witness :
    (∀ i ws, c5db.weightSet i = some ws → weightsNonneg ws) ∧
    ((∀ r, evaluate_brand_for_events c5db 1 2 = some r → aggregationOk r) ∧
      (∀ r, evaluate_event_for_brands c5db 1 2 = some r → aggregationOk r)) := by
  have hw : ∀ i ws, c5db.weightSet i = some ws → weightsNonneg ws := by
    intro i ws h
    by_cases hi : i = 1
    · subst hi
      have h2 : ws = c5weights := by simpa [c5db, noDb] using h.symm
      subst h2
      unfold weightsNonneg c5weights
      norm_num
    · exact absurd h (by simp [c5db, noDb, hi])
  exact ⟨hw, c5_aggregation c5db 1 2 hw⟩

theorem toList_map_fst (o : Option (ℚ × String)) :
    o.toList.map Prod.fst = (o.map Prod.fst).toList := by
  cases o <;> rfl

theorem audiencePair_fst_bounds (c1 : Prop) [Decidable c1] (c2 : Prop) [Decidable c2]
    (e1 e2 : String) :
    ∀ x : ℚ, ((if c1 then (if c2 then some ((1 : ℚ), e1) else some (0, e2)) else none).map
      Prod.fst) = some x → 0 ≤ x ∧ x ≤ 1 := by
  intro x h
  split_ifs at h
  · obtain rfl : x = 1 := by simpa using h.symm
    norm_num
  · obtain rfl : x = 0 := by simpa using h.symm
    norm_num
  · simp at h

theorem overlapIds_isEmpty_false {bids eids : List Nat} {i : Nat}
    (hi : i ∈ eids) (hb : bids.contains i = true) :
    (overlapIds bids eids).isEmpty = false := by
  have hmem : i ∈ eids.dedup.filter (fun j => bids.contains j) :=
    List.mem_filter.mpr ⟨List.mem_dedup.mpr hi, hb⟩
  unfold overlapIds
  cases hfl : eids.dedup.filter (fun j => bids.contains j) with
  | nil =>
      rw [hfl] at hmem
      exact absurd hmem (List.not_mem_nil i)
  | cons a t => rfl

theorem meanOrHalf_opt_mono (oldp newp : Option ℚ) (pre post : List ℚ)
    (hbounds : ∀ x ∈ pre ++ post, 0 ≤ x ∧ x ≤ 1)
    (hold : ∀ x, oldp = some x → x ≤ 1)
    (hnew : newp = some 1) :
    meanOrHalf (pre ++ oldp.toList ++ post) ≤
      meanOrHalf (pre ++ newp.toList ++ post) := by
  subst hnew
  rcases oldp with _ | x
  · simpa using meanOrHalf_le_insert_one pre post hbounds
  · simpa using meanOrHalf_mid_le pre post x (hold x rfl)

theorem meanOrHalf_append3_mono_fst (oldp newp t g : Option ℚ)
    (ht : ∀ x, t = some x → 0 ≤ x ∧ x ≤ 1) (hg : ∀ x, g = some x → 0 ≤ x ∧ x ≤ 1)
    (hold : ∀ x, oldp = some x → x ≤ 1) (hnew : newp = some 1) :
    meanOrHalf (oldp.toList ++ t.toList ++ g.toList) ≤
      meanOrHalf (newp.toList ++ t.toList ++ g.toList) := by
  have hb : ∀ x ∈ ([] : List ℚ) ++ (t.toList ++ g.toList), 0 ≤ x ∧ x ≤ 1 := by
    intro x hx
    simp only [List.nil_append, List.mem_append, Option.mem_toList, Option.mem_def] at hx
    rcases hx with hx | hx
    · exact ht x hx
    · exact hg x hx
  simpa using meanOrHalf_opt_mono oldp newp [] (t.toList ++ g.toList) hb hold hnew

theorem meanOrHalf_append3_mono_mid (a oldp newp g : Option ℚ)
    (ha : ∀ x, a = some x → 0 ≤ x ∧ x ≤ 1) (hg : ∀ x, g = some x → 0 ≤ x ∧ x ≤ 1)
    (hold : ∀ x, oldp = some x → x ≤ 1) (hnew : newp = some 1) :
    meanOrHalf (a.toList ++ oldp.toList ++ g.toList) ≤
      meanOrHalf (a.toList ++ newp.toList ++ g.toList) := by
  have hb : ∀ x ∈ a.toList ++ g.toList, 0 ≤ x ∧ x ≤ 1 := by
    intro x hx
    simp only [List.mem_append, Option.mem_toList, Option.mem_def] at hx
    rcases hx with hx | hx
    · exact ha x hx
    · exact hg x hx
  exact meanOrHalf_opt_mono oldp newp a.toList g.toList hb hold hnew

theorem meanOrHalf_append3_mono_last (a t oldp newp : Option ℚ)
    (ha : ∀ x, a = some x → 0 ≤ x ∧ x ≤ 1) (ht : ∀ x, t = some x → 0 ≤ x ∧ x ≤ 1)
    (hold : ∀ x, oldp = some x → x ≤ 1) (hnew : newp = some 1) :
    meanOrHalf (a.toList ++ t.toList ++ oldp.toList) ≤
      meanOrHalf (a.toList ++ t.toList ++ newp.toList) := by
  have hb : ∀ x ∈ (a.toList ++ t.toList) ++ ([] : List ℚ), 0 ≤ x ∧ x ≤ 1 := by
    intro x hx
    simp only [List.append_nil, List.mem_append, Option.mem_toList, Option.mem_def] at hx
    rcases hx with hx | hx
    · exact ha x hx
    · exact ht x hx
  simpa using meanOrHalf_opt_mono oldp newp (a.toList ++ t.toList) [] hb hold hnew

/-- C8: the audience-overlap scorer is monotonic in shared event audience
data — appending to the event's age distribution, audience-type list or
interest-tag list an entry whose id occurs in the brand's corresponding
target list never decreases the match factor. -/
theorem c8_audience_overlap_monotonic (ead : List AgeRef) (eat : List AudTypeRef)
    (eit : List TagRef) (bab : List AgeRef) (bat : List AudTypeRef)
    (bti : List TagRef) (w : ℚ) :
    (∀ e : AgeRef, e.age_bucket_id ∈ bab.map (fun a => a.age_bucket_id) →
      (score_audience_overlap ead eat eit bab bat bti w).match_factor ≤
        (score_audience_overlap (ead ++ [e]) eat eit bab bat bti w).match_factor) ∧
    (∀ e : AudTypeRef, e.audience_type_id ∈ bat.map (fun a => a.audience_type_id) →
      (score_audience_overlap ead eat eit bab bat bti w).match_factor ≤
        (score_audience_overlap ead (eat ++ [e]) eit bab bat bti w).match_factor) ∧
    (∀ e : TagRef, e.interest_tag_id ∈ bti.map (fun t => t.interest_tag_id) →
      (score_audience_overlap ead eat eit bab bat bti w).match_factor ≤
        (score_audience_overlap ead eat (eit ++ [e]) bab bat bti w).match_factor) := by
  refine ⟨?_, ?_, ?_⟩
  · intro e hmem
    have hb1 : bab.isEmpty = false := by
      cases bab with
      | nil => simp at hmem
      | cons a t => rfl
    simp only [score_audience_overlap, List.map_append, toList_map_fst]
    apply meanOrHalf_append3_mono_fst
    · exact audiencePair_fst_bounds _ _ _ _
    · exact audiencePair_fst_bounds _ _ _ _
    · intro x h
      exact (audiencePair_fst_bounds _ _ _ _ x h).2
    · have hov : (overlapIds (bab.map (fun a => a.age_bucket_id))
          (ead.map (fun a => a.age_bucket_id) ++
            [e].map (fun a => a.age_bucket_id))).isEmpty = false := by
        apply overlapIds_isEmpty_false (i := e.age_bucket_id)
        · simp
        · exact List.elem_iff.mpr hmem
      rw [if_pos ⟨hb1, by simp⟩, if_pos hov]
      rfl
  · intro e hmem
    have hb1 : bat.isEmpty = false := by
      cases bat with
      | nil => simp at hmem
      | cons a t => rfl
    simp only [score_audience_overlap, List.map_append, toList_map_fst]
    apply meanOrHalf_append3_mono_mid
    · exact audiencePair_fst_bounds _ _ _ _
    · exact audiencePair_fst_bounds _ _ _ _
    · intro x h
      exact (audiencePair_fst_bounds _ _ _ _ x h).2
    · have hov : (overlapIds (bat.map (fun a => a.audience_type_id))
          (eat.map (fun a => a.audience_type_id) ++
            [e].map (fun a => a.audience_type_id))).isEmpty = false := by
        apply overlapIds_isEmpty_false (i := e.audience_type_id)
        · simp
        · exact List.elem_iff.mpr hmem
      rw [if_pos ⟨hb1, by simp⟩, if_pos hov]
      rfl
  · intro e hmem
    have hb1 : bti.isEmpty = false := by
      cases bti with
      | nil => simp at hmem
      | cons a t => rfl
    simp only [score_audience_overlap, List.map_append, toList_map_fst]
    apply meanOrHalf_append3_mono_last
    · exact audiencePair_fst_bounds _ _ _ _
    · exact audiencePair_fst_bounds _ _ _ _
    · intro x h
      exact (audiencePair_fst_bounds _ _ _ _ x h).2
    · have hov : (overlapIds (bti.map (fun t => t.interest_tag_id))
          (eit.map (fun t => t.interest_tag_id) ++
            [e].map (fun t => t.interest_tag_id))).isEmpty = false := by
        apply overlapIds_isEmpty_false (i := e.interest_tag_id)
        · simp
        · exact List.elem_iff.mpr hmem
      rw [if_pos ⟨hb1, by simp⟩, if_pos hov]
      rfl

/-- C8 witness: concrete instance — a brand targeting age bucket 4, audience
type 6 and interest tag 8, an event starting with no audience data gaining a
shared entry on each dimension. -/
theorem c8_audience_overlap_monotonic_witness :
    ((4 : Nat) ∈ ([⟨4⟩] : List AgeRef).map (fun a => a.age_bucket_id) ∧
      (6 : Nat) ∈ ([⟨6⟩] : List AudTypeRef).map (fun a => a.audience_type_id) ∧
      (8 : Nat) ∈ ([⟨8, "chess"⟩] : List TagRef).map (fun t => t.interest_tag_id)) ∧
    (score_audience_overlap [] [] [] [⟨4⟩] [⟨6⟩] [⟨8, "chess"⟩] (1/5)).match_factor ≤
      (score_audience_overlap ([] ++ [⟨4⟩]) [] [] [⟨4⟩] [⟨6⟩] [⟨8, "chess"⟩] (1/5)).match_factor ∧
    (score_audience_overlap [] [] [] [⟨4⟩] [⟨6⟩] [⟨8, "chess"⟩] (1/5)).match_factor ≤
      (score_audience_overlap [] ([] ++ [⟨6⟩]) [] [⟨4⟩] [⟨6⟩] [⟨8, "chess"⟩] (1/5)).match_factor ∧
    (score_audience_overlap [] [] [] [⟨4⟩] [⟨6⟩] [⟨8, "chess"⟩] (1/5)).match_factor ≤
      (score_audience_overlap [] [] ([] ++ [⟨8, "chess"⟩]) [⟨4⟩] [⟨6⟩] [⟨8, "chess"⟩] (1/5)).match_factor := by
  obtain ⟨h1, h2, h3⟩ := c8_audience_overlap_monotonic [] [] [] [⟨4⟩] [⟨6⟩] [⟨8, "chess"⟩] (1/5)
  exact ⟨⟨by decide, by decide, by decide⟩,
    h1 ⟨4⟩ (by decide), h2 ⟨6⟩ (by decide), h3 ⟨8, "chess"⟩ (by decide)⟩

/-- C6: when the id listings are strictly ascending (the `ORDER BY org_id` of
the store queries) and event profiles carry their own ids, both batch match
lists are in non-increasing `match_percentage` order with ties in ascending
counterpart org id — the stable descending sort keeps enumeration order. -/
theorem c6_ranked_matches (db : Database) (bid eid : Nat)
    (hev : db.eventOrgs.Pairwise (· < ·))
    (hbr : db.brandOrgs.Pairwise (· < ·))
    (hwf : ∀ i e, db.eventProfile i = some e → e.event_org_id = i) :
    rankedOkBrandSide (get_matches_for_brand db bid).«matches» ∧
    rankedOkEventSide (get_matches_for_event db eid).«matches» := by
  constructor
  · have key : rankedOkBrandSide (sortByDesc (fun m => m.match_percentage)
        (db.eventOrgs.filterMap (fun e2 => evaluate_brand_for_events db bid e2))) := by
      have hpre : (db.eventOrgs.filterMap
          (fun e2 => evaluate_brand_for_events db bid e2)).Pairwise
          (fun a b => a.event_org_id < b.event_org_id) := by
        refine List.Pairwise.filterMap _ ?_ hev
        intro i j hij x hx y hy
        rw [Option.mem_def] at hx hy
        obtain ⟨brx, evx, hbx, hex, rfl⟩ := evaluate_brand_for_events_eq_some hx
        obtain ⟨bry, evy, hby, hey, rfl⟩ := evaluate_brand_for_events_eq_some hy
        rw [buildMatchResult_event_org_id, buildMatchResult_event_org_id,
          hwf i evx hex, hwf j evy hey]
        exact hij
      have hsorted := sortByDesc_pairwise (fun m : MatchResult => m.match_percentage)
        (fun a b => a.event_org_id < b.event_org_id) _ hpre
      unfold rankedOkBrandSide
      refine hsorted.imp ?_
      intro a b hab
      rcases hab with hlt | ⟨heq, hid⟩
      · simp only [] at hlt
        refine ⟨le_of_lt hlt, fun he => ?_⟩
        rw [he] at hlt
        exact absurd hlt (lt_irrefl _)
      · simp only [] at heq
        exact ⟨le_of_eq heq.symm, fun _ => hid⟩
    unfold get_matches_for_brand
    cases hb : db.brandProfile bid with
    | none => simp [rankedOkBrandSide]
    | some brand => exact key
  · have key : ∀ event : EventProfile, rankedOkEventSide
        (sortByDesc (fun m => m.match_percentage) (db.brandOrgs.filterMap
          (fun b2 => (evaluate_event_for_brands db b2 eid).bind fun mr =>
            (db.brandProfile b2).map fun brand =>
              ({ brand_org_id := b2, brand_name := brand.brand_name,
                 total_score := mr.total_score, max_score := mr.max_score,
                 match_percentage := mr.match_percentage, breakdown := mr.breakdown,
                 explanation := mr.explanation } : EventMatchItem)))) := by
      intro event
      have hpre : (db.brandOrgs.filterMap
          (fun b2 => (evaluate_event_for_brands db b2 eid).bind fun mr =>
            (db.brandProfile b2).map fun brand =>
              ({ brand_org_id := b2, brand_name := brand.brand_name,
                 total_score := mr.total_score, max_score := mr.max_score,
                 match_percentage := mr.match_percentage, breakdown := mr.breakdown,
                 explanation := mr.explanation } : EventMatchItem))).Pairwise
          (fun a b => a.brand_org_id < b.brand_org_id) := by
        refine List.Pairwise.filterMap _ ?_ hbr
        intro i j hij x hx y hy
        rw [Option.mem_def] at hx hy
        obtain ⟨mrx, hmrx, hmapx⟩ := Option.bind_eq_some.mp hx
        obtain ⟨brandx, hbrandx, rfl⟩ := Option.map_eq_some'.mp hmapx
        obtain ⟨mry, hmry, hmapy⟩ := Option.bind_eq_some.mp hy
        obtain ⟨brandy, hbrandy, rfl⟩ := Option.map_eq_some'.mp hmapy
        exact hij
      have hsorted := sortByDesc_pairwise (fun m : EventMatchItem => m.match_percentage)
        (fun a b => a.brand_org_id < b.brand_org_id) _ hpre
      unfold rankedOkEventSide
      refine hsorted.imp ?_
      intro a b hab
      rcases hab with hlt | ⟨heq, hid⟩
      · simp only [] at hlt
        refine ⟨le_of_lt hlt, fun he => ?_⟩
        rw [he] at hlt
        exact absurd hlt (lt_irrefl _)
      · simp only [] at heq
        exact ⟨le_of_eq heq.symm, fun _ => hid⟩
    unfold get_matches_for_event
    cases he : db.eventProfile eid with
    | none => simp [rankedOkEventSide]
    | some event => exact key event

/-- C6 witness: on the fixture store with two identical events (ids 3, 5) the
brand-side list ties at the same percentage and keeps ascending event ids,
and the ranking contracts hold on both directions. -/
theorem c6_ranked_matches_witness :
    (c6db.eventOrgs.Pairwise (· < ·) ∧ c6db.brandOrgs.Pairwise (· < ·) ∧
      (∀ i e, c6db.eventProfile i = some e → e.event_org_id = i)) ∧
    (rankedOkBrandSide (get_matches_for_brand c6db 1).«matches» ∧
      rankedOkEventSide (get_matches_for_event c6db 3).«matches») ∧
    ((get_matches_for_brand c6db 1).«matches».map (fun r => r.event_org_id) = [3, 5] ∧
      (get_matches_for_event c6db 3).«matches».map (fun r => r.brand_org_id) = [1, 4]) := by
  have hwf : ∀ i e, c6db.eventProfile i = some e → e.event_org_id = i := by
    intro i e h
    by_cases h3 : i = 3
    · subst h3
      have he : e = c6event 3 := by simpa [c6db, noDb] using h.symm
      subst he
      rfl
    · by_cases h5 : i = 5
      · subst h5
        have he : e = c6event 5 := by simpa [c6db, noDb] using h.symm
        subst he
        rfl
      · exact absurd h (by simp [c6db, noDb, h3, h5])
  refine ⟨⟨by decide, by decide, hwf⟩,
    c6_ranked_matches c6db 1 3 (by decide) (by decide) hwf, ?_, ?_⟩ <;>
    with_unfolding_all decide

end BarterNow
